import Mathlib

/-!
# TelegramEvent (bottender, src/context/TelegramEvent.js)

A shallow embedding of the class TelegramEvent and of the fragment of the
ECMAScript semantics its getters run on: property reads, truthiness,
typeof, strict equality with a string literal, the short-circuit conjunction and
the relational comparison against a numeric literal.

Value domain: the values a decoded payload can hold (undefined, null, booleans,
numbers, strings, arrays and plain objects with the standard built-in
tag and prototype). Functions, getters, proxies, symbols and big integers are outside
the domain. Every getter returns Except JSError JSValue, so that a thrown TypeError and
a non-boolean result are both observable.
-/

namespace JS

/-- A Number value: the two infinities, NaN, negative zero, and the finite values
(held as exact rationals; positive zero is fin 0). -/
inductive JSNumber where
  | nan
  | posInf
  | negInf
  | negZero
  | fin (q : ℚ)
  deriving DecidableEq, Repr

/-- An ECMAScript value of the payload domain. An object is the list of its own
enumerable data properties; the first entry for a key is the one that is read. -/
inductive JSValue where
  | undefined
  | null
  | bool (b : Bool)
  | number (n : JSNumber)
  | string (s : String)
  | array (elems : List JSValue)
  | object (fields : List (String × JSValue))

/-- The only exception the modelled fragment can throw. -/
inductive JSError where
  | typeError
  deriving DecidableEq, Repr

/-- Conversions between numbers and strings that the host engine supplies
(Number::toString and StringToNumber). They are total and never throw; the
development is parametric in them. -/
structure Host where
  numberToString : JSNumber → String
  stringToNumber : String → JSNumber

/-- ToBoolean. -/
def toBoolean : JSValue → Bool
  | .undefined => false
  | .null => false
  | .bool b => b
  | .number .nan => false
  | .number .negZero => false
  | .number (.fin q) => decide (q ≠ 0)
  | .number _ => true
  | .string s => decide (s ≠ "")
  | .array _ => true
  | .object _ => true

/-- Logical negation, the operator written ! in the source. -/
def logicalNot (v : JSValue) : JSValue := .bool (!toBoolean v)

/-- Short-circuit conjunction: the right operand is evaluated only when the left one is
truthy, and the result is one of the two operands, not a coerced boolean. -/
def logicalAnd (l : JSValue) (r : Unit → Except JSError JSValue) : Except JSError JSValue :=
  if toBoolean l then r () else .ok l

/-- The typeof operator. -/
def typeOf : JSValue → JSValue
  | .undefined => .string "undefined"
  | .null => .string "object"
  | .bool _ => .string "boolean"
  | .number _ => .string "number"
  | .string _ => .string "string"
  | .array _ => .string "object"
  | .object _ => .string "object"

/-- Strict equality of a value with a string literal (the only right operand the
source uses): true exactly for the same string. -/
def strictEqualsString (l : JSValue) (lit : String) : JSValue :=
  match l with
  | .string s => .bool (s == lit)
  | _ => .bool false

/-- Number of UTF-16 code units of a string, the value of its length property. -/
def utf16Length (s : String) : Nat :=
  (s.toList.map (fun c => if c.val < 0x10000 then 1 else 2)).sum

/-- Own data property of a plain object, undefined when there is none. -/
def lookupField (name : String) : List (String × JSValue) → JSValue
  | [] => .undefined
  | (k, v) :: rest => if k = name then v else lookupField name rest

/-- Whether a plain object has an own property of that name. -/
def hasOwn (name : String) (fields : List (String × JSValue)) : Bool :=
  fields.any (fun kv => kv.1 == name)

/-- Property read v.name for a name that is not an array index. Reading from
undefined or null throws; a primitive has no data property besides the length of
a string; an array has its length; a plain object has its own properties.
Inherited built-in methods are functions, outside the value domain: none of
the names the source reads is one of them. -/
def getProp (v : JSValue) (name : String) : Except JSError JSValue :=
  match v with
  | .undefined => .error .typeError
  | .null => .error .typeError
  | .bool _ => .ok .undefined
  | .number _ => .ok .undefined
  | .string s => if name = "length" then .ok (.number (.fin (utf16Length s))) else .ok .undefined
  | .array xs => if name = "length" then .ok (.number (.fin xs.length)) else .ok .undefined
  | .object fs => .ok (lookupField name fs)

mutual
/-- ToString. An array is joined with commas; a plain object goes through
OrdinaryToPrimitive with hint string: an own toString property is data, hence not
callable, and the inherited valueOf returns the object itself, so a TypeError is
thrown; otherwise the inherited toString gives the built-in tag. -/
def toStr (h : Host) : JSValue → Except JSError String
  | .undefined => .ok "undefined"
  | .null => .ok "null"
  | .bool b => .ok (if b then "true" else "false")
  | .number n => .ok (h.numberToString n)
  | .string s => .ok s
  | .array xs => joinElems h xs
  | .object fs => if hasOwn "toString" fs then .error .typeError else .ok "[object Object]"
/-- Array.prototype.join with the default separator. -/
def joinElems (h : Host) : List JSValue → Except JSError String
  | [] => .ok ""
  | [x] => elemStr h x
  | x :: y :: rest => do
      let a ← elemStr h x
      let b ← joinElems h (y :: rest)
      pure (a ++ "," ++ b)
/-- The text of one array element inside join: empty for undefined and null. -/
def elemStr (h : Host) : JSValue → Except JSError String
  | .undefined => .ok ""
  | .null => .ok ""
  | v => toStr h v
end

/-- ToPrimitive with hint number. For an array and for a plain object valueOf yields
the object itself (an own valueOf property is data and is skipped), so the result
is that of toString. -/
def toPrimitive (h : Host) (v : JSValue) : Except JSError JSValue :=
  match v with
  | .array xs => (joinElems h xs).map JSValue.string
  | .object fs => if hasOwn "toString" fs then .error .typeError else .ok (.string "[object Object]")
  | p => .ok p

/-- ToNumber of a primitive value. -/
def primToNumber (h : Host) : JSValue → JSNumber
  | .undefined => .nan
  | .null => .fin 0
  | .bool b => if b then .fin 1 else .fin 0
  | .number n => n
  | .string s => h.stringToNumber s
  | .array _ => .nan
  | .object _ => .nan

/-- The mathematical value of a number that is neither NaN nor infinite. -/
def JSNumber.toRat : JSNumber → ℚ
  | .fin q => q
  | _ => 0

/-- Number::lessThan; none is the undefined result of a comparison with NaN. -/
def JSNumber.lessThan (x y : JSNumber) : Option Bool :=
  match x, y with
  | .nan, _ => none
  | _, .nan => none
  | .posInf, _ => some false
  | _, .posInf => some true
  | _, .negInf => some false
  | .negInf, _ => some true
  | a, b => some (decide (a.toRat < b.toRat))

/-- The comparison l > n for a numeric literal n on the right (the only form in the
source). The left operand is converted to a primitive, which may throw, then to a
number; an undefined comparison gives false. -/
def greaterThanNumber (h : Host) (l : JSValue) (n : JSNumber) : Except JSError JSValue := do
  let pl ← toPrimitive h l
  match JSNumber.lessThan n (primToNumber h pl) with
  | some b => pure (.bool b)
  | none => pure (.bool false)

end JS

open JS

/-- The class TelegramEvent: its only field is the payload reference. -/
structure TelegramEvent where
  _rawEvent : JSValue

namespace TelegramEvent

/-- The constructor (source lines 112-114) stores the payload, whatever it is. -/
def new (rawEvent : JSValue) : Except JSError TelegramEvent :=
  .ok { _rawEvent := rawEvent }

/-- Getter rawEvent (source lines 120-122). -/
def rawEvent (e : TelegramEvent) : Except JSError JSValue :=
  .ok e._rawEvent

/-- Getter isMessage (source lines 128-130): double negation of the message property of
the payload. -/
def isMessage (e : TelegramEvent) : Except JSError JSValue := do
  let m ← getProp e._rawEvent "message"
  pure (logicalNot (logicalNot m))

/-- Getter message (source lines 136-138). -/
def message (e : TelegramEvent) : Except JSError JSValue :=
  getProp e._rawEvent "message"

/-- Getter callbackQuery (source lines 144-146). -/
def callbackQuery (e : TelegramEvent) : Except JSError JSValue :=
  getProp e._rawEvent "callback_query"

/-- Getter isText (source lines 152-154). -/
def isText (e : TelegramEvent) : Except JSError JSValue := do
  let c ← isMessage e
  logicalAnd c (fun _ => do
    let m ← message e
    let t ← getProp m "text"
    pure (strictEqualsString (typeOf t) "string"))

/-- The common body of the ten getters that test a field of the message for being an
object: they differ in the field name only. -/
def isObjectKind (field : String) (e : TelegramEvent) : Except JSError JSValue := do
  let c ← isMessage e
  if toBoolean (logicalNot c) then pure (.bool false)
  else do
    let message ← message e
    let v ← getProp message field
    logicalAnd (logicalNot (logicalNot v)) (fun _ => do
      let w ← getProp message field
      pure (strictEqualsString (typeOf w) "object"))

/-- Getter isAudio (source lines 160-166). -/
def isAudio (e : TelegramEvent) : Except JSError JSValue := isObjectKind "audio" e

/-- Getter isDocument (source lines 172-178). -/
def isDocument (e : TelegramEvent) : Except JSError JSValue := isObjectKind "document" e

/-- Getter isGame (source lines 184-190). -/
def isGame (e : TelegramEvent) : Except JSError JSValue := isObjectKind "game" e

/-- Getter isPhoto (source lines 196-202): the photo field is tested for truthiness and its length is
compared with zero; there is no typeof test. -/
def isPhoto (h : Host) (e : TelegramEvent) : Except JSError JSValue := do
  let c ← isMessage e
  if toBoolean (logicalNot c) then pure (.bool false)
  else do
    let message ← message e
    let p ← getProp message "photo"
    logicalAnd (logicalNot (logicalNot p)) (fun _ => do
      let q ← getProp message "photo"
      let len ← getProp q "length"
      greaterThanNumber h len (.fin 0))

/-- Getter isSticker (source lines 208-214). -/
def isSticker (e : TelegramEvent) : Except JSError JSValue := isObjectKind "sticker" e

/-- Getter isVideo (source lines 220-225). -/
def isVideo (e : TelegramEvent) : Except JSError JSValue := isObjectKind "video" e

/-- Getter isVoice (source lines 231-237). -/
def isVoice (e : TelegramEvent) : Except JSError JSValue := isObjectKind "voice" e

/-- Getter isVideoNote (source lines 243-249). -/
def isVideoNote (e : TelegramEvent) : Except JSError JSValue := isObjectKind "video_note" e

/-- Getter isContact (source lines 255-261). -/
def isContact (e : TelegramEvent) : Except JSError JSValue := isObjectKind "contact" e

/-- Getter isLocation (source lines 267-273). -/
def isLocation (e : TelegramEvent) : Except JSError JSValue := isObjectKind "location" e

/-- Getter isVenue (source lines 279-285). -/
def isVenue (e : TelegramEvent) : Except JSError JSValue := isObjectKind "venue" e

/-- Getter isCallbackQuery (source lines 291-293). -/
def isCallbackQuery (e : TelegramEvent) : Except JSError JSValue := do
  let c ← callbackQuery e
  logicalAnd (logicalNot (logicalNot c)) (fun _ => do
    let d ← callbackQuery e
    pure (strictEqualsString (typeOf d) "object"))

end TelegramEvent

/-! ## Vocabulary of the statements -/

namespace JS

/-- A structured value: a non-null object, which an array is too. -/
def isStructured : JSValue → Bool
  | .array _ => true
  | .object _ => true
  | _ => false

/-- Whether the value is a string. -/
def isString : JSValue → Bool
  | .string _ => true
  | _ => false

/-- The result is the boolean true, as opposed to false, another value or a throw. -/
def isTrueResult : Except JSError JSValue → Bool
  | .ok (.bool true) => true
  | _ => false

/-- The value has fields (it is neither undefined nor null) and the named one is set,
that is, reads as something other than undefined. -/
def fieldSet (v : JSValue) (name : String) : Bool :=
  match getProp v name with
  | .ok .undefined => false
  | .ok _ => true
  | .error _ => false

/-- The value has fields to read: it is neither undefined nor null. -/
def hasFields : JSValue → Bool
  | .undefined => false
  | .null => false
  | _ => true

/-- The falsy values, listed: undefined, null, false, NaN, the two zeros and the
empty string. -/
def isFalsy : JSValue → Bool
  | .undefined => true
  | .null => true
  | .bool false => true
  | .number .nan => true
  | .number .negZero => true
  | .number (.fin q) => decide (q = 0)
  | .string s => decide (s = "")
  | _ => false

/-- The primitive values and null: everything that is not a structured value. -/
def isPrimitiveOrNull : JSValue → Bool
  | .array _ => false
  | .object _ => false
  | _ => true

end JS

namespace TelegramEvent

/-- The ten getters that test a message field for being an object, each with the name of
the field it reads. -/
def objectKinds : List (String × (TelegramEvent → Except JSError JSValue)) :=
  [("audio", isAudio), ("document", isDocument), ("sticker", isSticker), ("video", isVideo),
   ("voice", isVoice), ("video_note", isVideoNote), ("contact", isContact),
   ("location", isLocation), ("venue", isVenue), ("game", isGame)]

/-- The eleven media getters with their fields: the ten above and isPhoto. -/
def mediaKinds (h : Host) : List (String × (TelegramEvent → Except JSError JSValue)) :=
  objectKinds ++ [("photo", isPhoto h)]

/-- The eleven media fields of a message. -/
def mediaFields : List String :=
  ["audio", "document", "sticker", "video", "voice", "video_note", "contact", "location",
   "venue", "game", "photo"]

/-- How many of the eleven media fields are set in the message m. -/
def setCount (m : JSValue) : Nat :=
  mediaFields.countP (fun f => fieldSet m f)

/-- How many of the eleven media getters return true on the event. -/
def trueCount (h : Host) (e : TelegramEvent) : Nat :=
  (mediaKinds h).countP (fun k => isTrueResult (k.2 e))

/-! ## The getters with the wrapper as explicit state -/

/-- A computation that runs on the wrapper as explicit state: it yields its completion (a
value or a throw) and the wrapper as the computation leaves it. -/
def Eval (α : Type) : Type := TelegramEvent → Except JSError α × TelegramEvent

/-- A computation that returns a value and touches nothing. -/
def Eval.ret {α : Type} (a : α) : Eval α := fun s => (.ok a, s)

/-- Sequencing: the second computation starts from the state the first one left; a throw
of the first one ends the sequence in the state it was thrown in. -/
def Eval.seq {α β : Type} (x : Eval α) (f : α → Eval β) : Eval β := fun s =>
  match x s with
  | (.ok a, s1) => f a s1
  | (.error err, s1) => (.error err, s1)

instance : Monad Eval where
  pure := Eval.ret
  bind := Eval.seq

/-- The read this._rawEvent. -/
def Eval.readRawEvent : Eval JSValue := fun s => (.ok s._rawEvent, s)

/-- An operator applied to values already read (a property read of a value, typeof, the
comparison): it has a completion and no access to the wrapper. -/
def Eval.ofExcept {α : Type} (x : Except JSError α) : Eval α := fun s => (x, s)

/-- Short-circuit conjunction whose right operand is a computation on the wrapper. -/
def Eval.logicalAnd (l : JSValue) (r : Eval JSValue) : Eval JSValue :=
  if toBoolean l then r else pure l

namespace Stateful

/-- Getter rawEvent (source lines 120-122). -/
def rawEvent : Eval JSValue := Eval.readRawEvent

/-- Getter isMessage (source lines 128-130). -/
def isMessage : Eval JSValue := do
  let r ← Eval.readRawEvent
  let m ← Eval.ofExcept (getProp r "message")
  pure (logicalNot (logicalNot m))

/-- Getter message (source lines 136-138). -/
def message : Eval JSValue := do
  let r ← Eval.readRawEvent
  Eval.ofExcept (getProp r "message")

/-- Getter callbackQuery (source lines 144-146). -/
def callbackQuery : Eval JSValue := do
  let r ← Eval.readRawEvent
  Eval.ofExcept (getProp r "callback_query")

/-- Getter isText (source lines 152-154). -/
def isText : Eval JSValue := do
  let c ← isMessage
  Eval.logicalAnd c (do
    let m ← message
    let t ← Eval.ofExcept (getProp m "text")
    pure (strictEqualsString (typeOf t) "string"))

/-- The common body of the ten getters that test a field of the message for being an
object. -/
def isObjectKind (field : String) : Eval JSValue := do
  let c ← isMessage
  if toBoolean (logicalNot c) then pure (.bool false)
  else do
    let message ← message
    let v ← Eval.ofExcept (getProp message field)
    Eval.logicalAnd (logicalNot (logicalNot v)) (do
      let w ← Eval.ofExcept (getProp message field)
      pure (strictEqualsString (typeOf w) "object"))

/-- Getter isPhoto (source lines 196-202). -/
def isPhoto (h : Host) : Eval JSValue := do
  let c ← isMessage
  if toBoolean (logicalNot c) then pure (.bool false)
  else do
    let message ← message
    let p ← Eval.ofExcept (getProp message "photo")
    Eval.logicalAnd (logicalNot (logicalNot p)) (do
      let q ← Eval.ofExcept (getProp message "photo")
      let len ← Eval.ofExcept (getProp q "length")
      Eval.ofExcept (greaterThanNumber h len (.fin 0)))

/-- Getter isCallbackQuery (source lines 291-293). -/
def isCallbackQuery : Eval JSValue := do
  let c ← callbackQuery
  Eval.logicalAnd (logicalNot (logicalNot c)) (do
    let d ← callbackQuery
    pure (strictEqualsString (typeOf d) "object"))

end Stateful

/-- The accessors and predicates of the class, by name. -/
inductive Getter where
  | rawEvent
  | isMessage
  | message
  | callbackQuery
  | isText
  | isAudio
  | isDocument
  | isGame
  | isPhoto
  | isSticker
  | isVideo
  | isVoice
  | isVideoNote
  | isContact
  | isLocation
  | isVenue
  | isCallbackQuery
  deriving DecidableEq, Repr

/-- The getter of that name as a computation on the wrapper. -/
def Getter.run (h : Host) : Getter → Eval JSValue
  | .rawEvent => Stateful.rawEvent
  | .isMessage => Stateful.isMessage
  | .message => Stateful.message
  | .callbackQuery => Stateful.callbackQuery
  | .isText => Stateful.isText
  | .isAudio => Stateful.isObjectKind "audio"
  | .isDocument => Stateful.isObjectKind "document"
  | .isGame => Stateful.isObjectKind "game"
  | .isPhoto => Stateful.isPhoto h
  | .isSticker => Stateful.isObjectKind "sticker"
  | .isVideo => Stateful.isObjectKind "video"
  | .isVoice => Stateful.isObjectKind "voice"
  | .isVideoNote => Stateful.isObjectKind "video_note"
  | .isContact => Stateful.isObjectKind "contact"
  | .isLocation => Stateful.isObjectKind "location"
  | .isVenue => Stateful.isObjectKind "venue"
  | .isCallbackQuery => Stateful.isCallbackQuery

/-- The getter of that name as the function of the wrapper defined above. -/
def Getter.eval (h : Host) : Getter → TelegramEvent → Except JSError JSValue
  | .rawEvent => TelegramEvent.rawEvent
  | .isMessage => TelegramEvent.isMessage
  | .message => TelegramEvent.message
  | .callbackQuery => TelegramEvent.callbackQuery
  | .isText => TelegramEvent.isText
  | .isAudio => TelegramEvent.isAudio
  | .isDocument => TelegramEvent.isDocument
  | .isGame => TelegramEvent.isGame
  | .isPhoto => TelegramEvent.isPhoto h
  | .isSticker => TelegramEvent.isSticker
  | .isVideo => TelegramEvent.isVideo
  | .isVoice => TelegramEvent.isVoice
  | .isVideoNote => TelegramEvent.isVideoNote
  | .isContact => TelegramEvent.isContact
  | .isLocation => TelegramEvent.isLocation
  | .isVenue => TelegramEvent.isVenue
  | .isCallbackQuery => TelegramEvent.isCallbackQuery

/-- A sequence of getter calls on one wrapper, in order: the completions, and the wrapper
after the last call. -/
def runAll (h : Host) : List Getter → TelegramEvent → List (Except JSError JSValue) × TelegramEvent
  | [], s => ([], s)
  | g :: gs, s =>
    let first := g.run h s
    let others := runAll h gs first.2
    (first.1 :: others.1, others.2)

/-- A number greater than zero: positive infinity or a positive finite value. -/
def isPositive : JSNumber → Bool
  | .posInf => true
  | .fin q => decide (0 < q)
  | _ => false

/-! ## Evaluation lemmas -/

theorem toBoolean_bool (b : Bool) : toBoolean (.bool b) = b := rfl

theorem isMessage_eval {e : TelegramEvent} {m : JSValue}
    (hm : getProp e._rawEvent "message" = .ok m) :
    isMessage e = .ok (.bool (toBoolean m)) := by
  simp [isMessage, hm, logicalNot, toBoolean_bool, bind, Except.bind, pure, Except.pure]

theorem isText_falsy {e : TelegramEvent} {m : JSValue}
    (hm : getProp e._rawEvent "message" = .ok m) (hf : toBoolean m = false) :
    isText e = .ok (.bool false) := by
  simp [isText, isMessage_eval hm, hf, logicalAnd, toBoolean_bool, bind, Except.bind]

theorem isText_truthy {e : TelegramEvent} {m t : JSValue}
    (hm : getProp e._rawEvent "message" = .ok m) (ht : toBoolean m = true)
    (hx : getProp m "text" = .ok t) :
    isText e = .ok (.bool (isString t)) := by
  simp [isText, isMessage_eval hm, ht, logicalAnd, toBoolean_bool, bind, Except.bind, message, hm, hx,
    pure, Except.pure]
  cases t <;> simp [typeOf, strictEqualsString, isString]

theorem isObjectKind_falsy {e : TelegramEvent} {m : JSValue} (field : String)
    (hm : getProp e._rawEvent "message" = .ok m) (hf : toBoolean m = false) :
    isObjectKind field e = .ok (.bool false) := by
  simp [isObjectKind, isMessage_eval hm, hf, logicalNot, toBoolean_bool, bind, Except.bind, pure,
    Except.pure]

theorem isObjectKind_truthy {e : TelegramEvent} {m v : JSValue} {field : String}
    (hm : getProp e._rawEvent "message" = .ok m) (ht : toBoolean m = true)
    (hv : getProp m field = .ok v) :
    isObjectKind field e = .ok (.bool (isStructured v)) := by
  simp [isObjectKind, isMessage_eval hm, ht, logicalNot, logicalAnd, toBoolean_bool, bind, Except.bind,
    pure, Except.pure, message, hm, hv]
  cases v <;> simp [typeOf, strictEqualsString, isStructured, toBoolean]

theorem isPhoto_falsy {e : TelegramEvent} {m : JSValue} (h : Host)
    (hm : getProp e._rawEvent "message" = .ok m) (hf : toBoolean m = false) :
    isPhoto h e = .ok (.bool false) := by
  simp [isPhoto, isMessage_eval hm, hf, logicalNot, toBoolean_bool, bind, Except.bind, pure,
    Except.pure]

theorem isPhoto_truthy {e : TelegramEvent} {m p : JSValue} (h : Host)
    (hm : getProp e._rawEvent "message" = .ok m) (ht : toBoolean m = true)
    (hp : getProp m "photo" = .ok p) :
    isPhoto h e =
      if toBoolean p then (getProp p "length").bind (fun len => greaterThanNumber h len (.fin 0))
      else .ok (.bool false) := by
  simp [isPhoto, isMessage_eval hm, ht, logicalNot, logicalAnd, toBoolean_bool, bind, Except.bind,
    pure, Except.pure, message, hm, hp]
  cases hb : toBoolean p <;> simp

theorem isCallbackQuery_eval {e : TelegramEvent} {c : JSValue}
    (hc : getProp e._rawEvent "callback_query" = .ok c) :
    isCallbackQuery e = .ok (.bool (isStructured c)) := by
  simp [isCallbackQuery, callbackQuery, hc, logicalNot, logicalAnd, toBoolean_bool, bind, Except.bind,
    pure, Except.pure]
  cases c <;> simp [typeOf, strictEqualsString, isStructured, toBoolean]

theorem getProp_ok_of_hasFields {p : JSValue} (name : String) (hp : hasFields p = true) :
    ∃ v, getProp p name = .ok v := by
  cases p <;> simp [hasFields] at hp <;> simp [getProp]
  all_goals split <;> simp

theorem hasFields_of_truthy {m : JSValue} (hm : toBoolean m = true) : hasFields m = true := by
  cases m <;> simp [toBoolean] at hm <;> simp [hasFields]

theorem getProp_undefined_of_not_set {p : JSValue} {name : String} (hp : hasFields p = true)
    (hs : fieldSet p name = false) : getProp p name = .ok .undefined := by
  obtain ⟨v, hv⟩ := getProp_ok_of_hasFields name hp
  cases v <;> simp [fieldSet, hv] at hs
  exact hv

theorem lookupField_eq_lookup (name : String) (fs : List (String × JSValue)) :
    lookupField name fs = (fs.lookup name).getD .undefined := by
  induction fs with
  | nil => simp [lookupField]
  | cons kv rest ih =>
    obtain ⟨k, v⟩ := kv
    by_cases hk : k = name
    · subst hk
      simp [lookupField, List.lookup]
    · have hne : (name == k) = false := by
        simpa using fun hh : name = k => hk hh.symm
      simp [lookupField, List.lookup, hk, hne, ih]

theorem greaterThanNumber_of_primitive (h : Host) {l : JSValue} (n : JSNumber)
    (hl : isStructured l = false) : ∃ b, greaterThanNumber h l n = .ok (.bool b) := by
  have hp : toPrimitive h l = .ok l := by
    cases l <;> simp [isStructured] at hl <;> simp [toPrimitive]
  simp only [greaterThanNumber, hp, bind, Except.bind]
  cases JSNumber.lessThan n (primToNumber h l) <;> simp [pure, Except.pure]

/-! ## C1: no message field -/

/-- C1 fails as stated on the payloads null and undefined. Neither has a message field, and
on both isMessage and each of the twelve message-kind getters throws a TypeError (a property of
null or undefined is read) instead of returning false. -/
theorem c1_counterexample :
    (fieldSet .null "message" = false ∧
      isMessage ⟨.null⟩ = .error .typeError ∧ isText ⟨.null⟩ = .error .typeError ∧
      (∀ h : Host, isPhoto h ⟨.null⟩ = .error .typeError) ∧
      isAudio ⟨.null⟩ = .error .typeError ∧ isDocument ⟨.null⟩ = .error .typeError ∧
      isSticker ⟨.null⟩ = .error .typeError ∧ isVideo ⟨.null⟩ = .error .typeError ∧
      isVoice ⟨.null⟩ = .error .typeError ∧ isVideoNote ⟨.null⟩ = .error .typeError ∧
      isContact ⟨.null⟩ = .error .typeError ∧ isLocation ⟨.null⟩ = .error .typeError ∧
      isVenue ⟨.null⟩ = .error .typeError ∧ isGame ⟨.null⟩ = .error .typeError) ∧
    (fieldSet .undefined "message" = false ∧
      isMessage ⟨.undefined⟩ = .error .typeError ∧ isText ⟨.undefined⟩ = .error .typeError ∧
      (∀ h : Host, isPhoto h ⟨.undefined⟩ = .error .typeError) ∧
      isLocation ⟨.undefined⟩ = .error .typeError) :=
  ⟨⟨rfl, rfl, rfl, fun _ => rfl, rfl, rfl, rfl, rfl, rfl, rfl, rfl, rfl, rfl, rfl⟩,
   ⟨rfl, rfl, rfl, fun _ => rfl, rfl⟩⟩

/-- C1 as amended: for every payload other than null and undefined (every value that has
fields) that has no message field, isMessage is false and each of the twelve message-kind
getters (isText, isPhoto, isAudio, isDocument, isSticker, isVideo, isVoice, isVideoNote,
isContact, isLocation, isVenue, isGame) is false. -/
theorem c1_no_message_all_false (p : JSValue) (hp : hasFields p = true)
    (hno : fieldSet p "message" = false) :
    isMessage ⟨p⟩ = .ok (.bool false) ∧ isText ⟨p⟩ = .ok (.bool false) ∧
    (∀ h : Host, isPhoto h ⟨p⟩ = .ok (.bool false)) ∧ isAudio ⟨p⟩ = .ok (.bool false) ∧
    isDocument ⟨p⟩ = .ok (.bool false) ∧ isSticker ⟨p⟩ = .ok (.bool false) ∧
    isVideo ⟨p⟩ = .ok (.bool false) ∧ isVoice ⟨p⟩ = .ok (.bool false) ∧
    isVideoNote ⟨p⟩ = .ok (.bool false) ∧ isContact ⟨p⟩ = .ok (.bool false) ∧
    isLocation ⟨p⟩ = .ok (.bool false) ∧ isVenue ⟨p⟩ = .ok (.bool false) ∧
    isGame ⟨p⟩ = .ok (.bool false) := by
  have hm : getProp (TelegramEvent.mk p)._rawEvent "message" = .ok .undefined :=
    getProp_undefined_of_not_set hp hno
  have hf : toBoolean .undefined = false := rfl
  refine ⟨?_, isText_falsy hm hf, fun h => isPhoto_falsy h hm hf, isObjectKind_falsy _ hm hf,
    isObjectKind_falsy _ hm hf, isObjectKind_falsy _ hm hf, isObjectKind_falsy _ hm hf,
    isObjectKind_falsy _ hm hf, isObjectKind_falsy _ hm hf, isObjectKind_falsy _ hm hf,
    isObjectKind_falsy _ hm hf, isObjectKind_falsy _ hm hf, isObjectKind_falsy _ hm hf⟩
  simpa [hf] using isMessage_eval hm

/-- C1 as amended, at the payload with update_id 3 and a callback_query holding data x, which
has no message field. -/
theorem c1_no_message_all_false_witness :
    fieldSet (.object [("update_id", .number (.fin 3)),
        ("callback_query", .object [("data", .string "x")])]) "message" = false ∧
    isMessage ⟨.object [("update_id", .number (.fin 3)),
        ("callback_query", .object [("data", .string "x")])]⟩ = .ok (.bool false) ∧
    isLocation ⟨.object [("update_id", .number (.fin 3)),
        ("callback_query", .object [("data", .string "x")])]⟩ = .ok (.bool false) ∧
    ∀ h : Host, isPhoto h ⟨.object [("update_id", .number (.fin 3)),
        ("callback_query", .object [("data", .string "x")])]⟩ = .ok (.bool false) :=
  have w := c1_no_message_all_false
    (.object [("update_id", .number (.fin 3)),
      ("callback_query", .object [("data", .string "x")])]) (by decide) (by decide)
  ⟨by decide, w.1, w.2.2.2.2.2.2.2.2.2.2.1, w.2.2.1⟩

/-! ## C2: which reads can throw -/

/-- C2 fails as stated. On the payload null the constructor succeeds but isMessage,
message, callbackQuery, isText, isAudio and isCallbackQuery throw a TypeError (reading a
property of null). On the payload whose message has a photo object whose length is an
object with an own toString property, isPhoto throws a TypeError (the comparison with
zero cannot convert that length to a primitive). -/
theorem c2_counterexample :
    (∃ e, new .null = .ok e ∧ isMessage e = .error .typeError ∧
      message e = .error .typeError ∧ callbackQuery e = .error .typeError ∧
      isText e = .error .typeError ∧ isAudio e = .error .typeError ∧
      isCallbackQuery e = .error .typeError) ∧
    (∀ h : Host, ∃ e,
      new (.object [("update_id", .number (.fin 1)),
        ("message", .object [("photo",
          .object [("length", .object [("toString", .number (.fin 1))])])])]) = .ok e ∧
      isPhoto h e = .error .typeError) := by
  refine ⟨⟨⟨.null⟩, rfl, rfl, rfl, rfl, rfl, rfl, rfl⟩, fun h => ⟨_, rfl, ?_⟩⟩
  rfl

/-- C2 as amended. The constructor and rawEvent never throw, on any value. For every
payload other than undefined and null, message and callbackQuery return a value, and
isMessage, isText, the ten object-kind getters and isCallbackQuery each return the boolean
true or false. isPhoto returns true or false as well whenever the photo field of the
message is not a plain object (so when it is absent, a sequence or a primitive). -/
theorem c2_total_on_payloads_with_fields (p : JSValue) :
    (∃ e, new p = .ok e ∧ rawEvent e = .ok p) ∧
    (hasFields p = true →
      (∃ v, message ⟨p⟩ = .ok v) ∧ (∃ v, callbackQuery ⟨p⟩ = .ok v) ∧
      (∃ b, isMessage ⟨p⟩ = .ok (.bool b)) ∧ (∃ b, isText ⟨p⟩ = .ok (.bool b)) ∧
      (∀ k ∈ objectKinds, ∃ b, k.2 ⟨p⟩ = .ok (.bool b)) ∧
      (∃ b, isCallbackQuery ⟨p⟩ = .ok (.bool b)) ∧
      ((∀ m fs, message ⟨p⟩ = .ok m → getProp m "photo" ≠ .ok (.object fs)) →
        ∀ h : Host, ∃ b, isPhoto h ⟨p⟩ = .ok (.bool b))) := by
  refine ⟨⟨⟨p⟩, rfl, rfl⟩, fun hp => ?_⟩
  obtain ⟨m, hm⟩ := getProp_ok_of_hasFields "message" hp
  obtain ⟨c, hc⟩ := getProp_ok_of_hasFields "callback_query" hp
  have hm2 : getProp (TelegramEvent.mk p)._rawEvent "message" = .ok m := hm
  refine ⟨⟨m, hm⟩, ⟨c, hc⟩, ⟨_, isMessage_eval hm2⟩, ?_, ?_, ⟨_, isCallbackQuery_eval hc⟩, ?_⟩
  · cases ht : toBoolean m
    · exact ⟨_, isText_falsy hm2 ht⟩
    · obtain ⟨t, hx⟩ := getProp_ok_of_hasFields "text" (hasFields_of_truthy ht)
      exact ⟨_, isText_truthy hm2 ht hx⟩
  · have key : ∀ field, ∃ b, isObjectKind field ⟨p⟩ = .ok (.bool b) := by
      intro field
      cases ht : toBoolean m
      · exact ⟨_, isObjectKind_falsy field hm2 ht⟩
      · obtain ⟨v, hv⟩ := getProp_ok_of_hasFields field (hasFields_of_truthy ht)
        exact ⟨_, isObjectKind_truthy hm2 ht hv⟩
    intro k hk
    simp only [objectKinds, List.mem_cons, List.mem_singleton, List.not_mem_nil, or_false] at hk
    rcases hk with hk | hk | hk | hk | hk | hk | hk | hk | hk | hk <;> subst hk <;> exact key _
  · intro hph h
    cases ht : toBoolean m
    · exact ⟨_, isPhoto_falsy h hm2 ht⟩
    · obtain ⟨ph, hv⟩ := getProp_ok_of_hasFields "photo" (hasFields_of_truthy ht)
      rw [isPhoto_truthy h hm2 ht hv]
      cases hb : toBoolean ph
      · exact ⟨false, by simp⟩
      · simp only [if_true]
        have hnot : ∀ fs, ph ≠ .object fs := fun fs hfs => hph m fs hm (by rw [hv, hfs])
        cases ph with
        | undefined => simp [toBoolean] at hb
        | null => simp [toBoolean] at hb
        | bool b =>
          simpa [getProp, Except.bind] using
            greaterThanNumber_of_primitive h (l := .undefined) (.fin 0) rfl
        | number n =>
          simpa [getProp, Except.bind] using
            greaterThanNumber_of_primitive h (l := .undefined) (.fin 0) rfl
        | string s =>
          simpa [getProp, Except.bind] using
            greaterThanNumber_of_primitive h (l := .number (.fin (utf16Length s))) (.fin 0) rfl
        | array xs =>
          simpa [getProp, Except.bind] using
            greaterThanNumber_of_primitive h (l := .number (.fin xs.length)) (.fin 0) rfl
        | object fs => exact absurd rfl (hnot fs)

/-- C2 as amended, at the payload with update_id 1 and a message holding message_id 5 and
the text hi. -/
theorem c2_total_on_payloads_with_fields_witness :
    hasFields (.object [("update_id", .number (.fin 1)),
      ("message", .object [("message_id", .number (.fin 5)), ("text", .string "hi")])]) = true ∧
    (∃ b, isText ⟨.object [("update_id", .number (.fin 1)),
      ("message", .object [("message_id", .number (.fin 5)), ("text", .string "hi")])]⟩
        = .ok (.bool b)) ∧
    (∀ h : Host, ∃ b, isPhoto h ⟨.object [("update_id", .number (.fin 1)),
      ("message", .object [("message_id", .number (.fin 5)), ("text", .string "hi")])]⟩
        = .ok (.bool b)) :=
  ⟨by decide,
   ((c2_total_on_payloads_with_fields _).2 (by decide)).2.2.2.1,
   ((c2_total_on_payloads_with_fields _).2 (by decide)).2.2.2.2.2.2 (by
     intro m fs hm
     have hm2 : m = .object [("message_id", .number (.fin 5)), ("text", .string "hi")] := by
       simpa [message, getProp, lookupField] using hm.symm
     subst hm2
     simp [getProp, lookupField])⟩

/-! ## C3: one media field set -/

theorem fieldSet_of_truthy {m v : JSValue} {name : String} (hv : getProp m name = .ok v)
    (ht : toBoolean v = true) : fieldSet m name = true := by
  cases v <;> simp [toBoolean] at ht <;> simp [fieldSet, hv]

theorem toBoolean_of_isStructured {v : JSValue} (hs : isStructured v = true) :
    toBoolean v = true := by
  cases v <;> simp [isStructured] at hs <;> simp [toBoolean]

theorem truthy_of_fieldSet {m : JSValue} {name : String} (hn : name ≠ "length")
    (hs : fieldSet m name = true) : toBoolean m = true := by
  cases m <;> simp [fieldSet, getProp, hn] at hs
  simp [toBoolean]

theorem isObjectKind_true_set {e : TelegramEvent} {m : JSValue} {field : String}
    (hm : getProp e._rawEvent "message" = .ok m)
    (hr : isTrueResult (isObjectKind field e) = true) : fieldSet m field = true := by
  cases ht : toBoolean m
  · rw [isObjectKind_falsy field hm ht] at hr
    simp [isTrueResult] at hr
  · obtain ⟨v, hv⟩ := getProp_ok_of_hasFields field (hasFields_of_truthy ht)
    rw [isObjectKind_truthy hm ht hv] at hr
    cases hs : isStructured v
    · simp [isTrueResult, hs] at hr
    · exact fieldSet_of_truthy hv (toBoolean_of_isStructured hs)

theorem isPhoto_true_set {e : TelegramEvent} {m : JSValue} (h : Host)
    (hm : getProp e._rawEvent "message" = .ok m)
    (hr : isTrueResult (isPhoto h e) = true) : fieldSet m "photo" = true := by
  cases ht : toBoolean m
  · rw [isPhoto_falsy h hm ht] at hr
    simp [isTrueResult] at hr
  · obtain ⟨v, hv⟩ := getProp_ok_of_hasFields "photo" (hasFields_of_truthy ht)
    rw [isPhoto_truthy h hm ht hv] at hr
    cases hb : toBoolean v
    · simp [isTrueResult, hb] at hr
    · exact fieldSet_of_truthy hv hb

theorem isPhoto_of_array {e : TelegramEvent} {m : JSValue} (h : Host) (xs : List JSValue)
    (hm : getProp e._rawEvent "message" = .ok m) (ht : toBoolean m = true)
    (hp : getProp m "photo" = .ok (.array xs)) :
    isPhoto h e = .ok (.bool (decide (0 < xs.length))) := by
  rw [isPhoto_truthy h hm ht hp]
  simp [toBoolean, getProp, Except.bind, greaterThanNumber, toPrimitive, primToNumber,
    JSNumber.lessThan, JSNumber.toRat, bind, pure, Except.pure]

theorem trueCount_le_setCount (h : Host) {e : TelegramEvent} {m : JSValue}
    (hm : getProp e._rawEvent "message" = .ok m) : trueCount h e ≤ setCount m := by
  have hmap : mediaFields = (mediaKinds h).map Prod.fst := rfl
  unfold trueCount setCount
  rw [hmap, List.countP_map]
  apply List.countP_mono_left
  intro k hk hr
  simp only [mediaKinds, objectKinds, List.cons_append, List.nil_append, List.mem_cons,
    List.mem_singleton, List.not_mem_nil, or_false] at hk
  rcases hk with hk | hk | hk | hk | hk | hk | hk | hk | hk | hk | hk <;> subst hk
  all_goals first
    | exact isObjectKind_true_set hm hr
    | exact isPhoto_true_set h hm hr

theorem objectKinds_eq_isObjectKind :
    ∀ k ∈ objectKinds, k.2 = isObjectKind k.1 := by
  intro k hk
  simp only [objectKinds, List.mem_cons, List.mem_singleton, List.not_mem_nil, or_false] at hk
  rcases hk with hk | hk | hk | hk | hk | hk | hk | hk | hk | hk <;> subst hk <;> rfl

theorem objectKinds_field_ne_length : ∀ k ∈ objectKinds, k.1 ≠ "length" := by
  intro k hk
  simp only [objectKinds, List.mem_cons, List.mem_singleton, List.not_mem_nil, or_false] at hk
  rcases hk with hk | hk | hk | hk | hk | hk | hk | hk | hk | hk <;> subst hk <;> decide

/-- C3 fails as stated. In the payload with update_id 4 and a message holding message_id 7
and an empty photo sequence, exactly one of the eleven media fields is set (photo), yet none
of the eleven media getters returns true. The same happens when the one field set holds a
primitive: a message whose audio is the string x. -/
theorem c3_counterexample :
    (∃ m, message ⟨.object [("update_id", .number (.fin 4)),
        ("message", .object [("message_id", .number (.fin 7)), ("photo", .array [])])]⟩ = .ok m ∧
      setCount m = 1 ∧
      ∀ h : Host, trueCount h ⟨.object [("update_id", .number (.fin 4)),
        ("message", .object [("message_id", .number (.fin 7)), ("photo", .array [])])]⟩ = 0) ∧
    (∃ m, message ⟨.object [("update_id", .number (.fin 4)),
        ("message", .object [("message_id", .number (.fin 7)), ("audio", .string "x")])]⟩ = .ok m ∧
      setCount m = 1 ∧
      ∀ h : Host, trueCount h ⟨.object [("update_id", .number (.fin 4)),
        ("message", .object [("message_id", .number (.fin 7)), ("audio", .string "x")])]⟩ = 0) := by
  refine ⟨⟨_, rfl, by decide, fun h => ?_⟩, ⟨_, rfl, by decide, fun h => ?_⟩⟩
  · have hm : getProp (TelegramEvent.mk (.object [("update_id", .number (.fin 4)),
        ("message", .object [("message_id", .number (.fin 7)), ("photo", .array [])])]))._rawEvent
        "message" = .ok (.object [("message_id", .number (.fin 7)), ("photo", .array [])]) := rfl
    have hph := isPhoto_of_array h [] hm rfl rfl
    rw [trueCount, List.countP_eq_zero]
    intro k hk
    simp only [mediaKinds, objectKinds, List.cons_append, List.nil_append, List.mem_cons,
      List.mem_singleton, List.not_mem_nil, or_false] at hk
    rcases hk with hk | hk | hk | hk | hk | hk | hk | hk | hk | hk | hk <;> subst hk
    all_goals first
      | decide
      | simp [hph, isTrueResult]
  · have hm : getProp (TelegramEvent.mk (.object [("update_id", .number (.fin 4)),
        ("message", .object [("message_id", .number (.fin 7)),
          ("audio", .string "x")])]))._rawEvent
        "message" = .ok (.object [("message_id", .number (.fin 7)), ("audio", .string "x")]) := rfl
    have hph : isPhoto h _ = _ := isPhoto_truthy h hm rfl (p := .undefined) rfl
    rw [trueCount, List.countP_eq_zero]
    intro k hk
    simp only [mediaKinds, objectKinds, List.cons_append, List.nil_append, List.mem_cons,
      List.mem_singleton, List.not_mem_nil, or_false] at hk
    rcases hk with hk | hk | hk | hk | hk | hk | hk | hk | hk | hk | hk <;> subst hk
    all_goals first
      | decide
      | simp [hph, isTrueResult, toBoolean]

/-- C3 as amended. For every payload whose message has exactly one of the eleven media
fields set, at most one of the eleven media getters returns true, and a getter that returns
true is the one of the field that is set. Exactly one returns true when that field is one of
the ten object kinds and holds a structured value, or is photo and holds a non-empty
sequence. -/
theorem c3_at_most_one_media_kind (h : Host) (e : TelegramEvent) (m : JSValue)
    (hm : message e = .ok m) (hone : setCount m = 1) :
    trueCount h e ≤ 1 ∧
    (∀ k ∈ mediaKinds h, isTrueResult (k.2 e) = true → fieldSet m k.1 = true) ∧
    ((∃ k ∈ objectKinds, ∃ v, getProp m k.1 = .ok v ∧ isStructured v = true) →
      trueCount h e = 1) ∧
    ((∃ x xs, getProp m "photo" = .ok (.array (x :: xs))) → trueCount h e = 1) := by
  have hm2 : getProp e._rawEvent "message" = .ok m := hm
  have hle : trueCount h e ≤ 1 := hone ▸ trueCount_le_setCount h hm2
  refine ⟨hle, ?_, ?_, ?_⟩
  · intro k hk hr
    simp only [mediaKinds, List.mem_append, List.mem_singleton] at hk
    rcases hk with hk | hk
    · rw [objectKinds_eq_isObjectKind k hk] at hr
      exact isObjectKind_true_set hm2 hr
    · subst hk
      exact isPhoto_true_set h hm2 hr
  · rintro ⟨k, hk, v, hv, hs⟩
    have ht : toBoolean m = true :=
      truthy_of_fieldSet (objectKinds_field_ne_length k hk)
        (fieldSet_of_truthy hv (toBoolean_of_isStructured hs))
    have hpos : 0 < trueCount h e := by
      rw [trueCount, List.countP_pos_iff]
      refine ⟨k, List.mem_append_left _ hk, ?_⟩
      rw [objectKinds_eq_isObjectKind k hk, isObjectKind_truthy hm2 ht hv, hs]
      rfl
    omega
  · rintro ⟨x, xs, hp⟩
    have ht : toBoolean m = true :=
      truthy_of_fieldSet (by decide) (fieldSet_of_truthy hp rfl)
    have hpos : 0 < trueCount h e := by
      rw [trueCount, List.countP_pos_iff]
      refine ⟨("photo", isPhoto h), by simp [mediaKinds], ?_⟩
      simp [isPhoto_of_array h (x :: xs) hm2 ht hp, isTrueResult]
    omega

/-- C3 as amended, at the payload with update_id 2 and a message holding message_id 6 and a
location with longitude 1 and latitude 2. -/
theorem c3_at_most_one_media_kind_witness :
    setCount (.object [("message_id", .number (.fin 6)),
      ("location", .object [("longitude", .number (.fin 1)),
        ("latitude", .number (.fin 2))])]) = 1 ∧
    ∀ h : Host, trueCount h ⟨.object [("update_id", .number (.fin 2)),
      ("message", .object [("message_id", .number (.fin 6)),
        ("location", .object [("longitude", .number (.fin 1)),
          ("latitude", .number (.fin 2))])])]⟩ = 1 :=
  ⟨by decide, fun h =>
    (c3_at_most_one_media_kind h
      ⟨.object [("update_id", .number (.fin 2)),
        ("message", .object [("message_id", .number (.fin 6)),
          ("location", .object [("longitude", .number (.fin 1)),
            ("latitude", .number (.fin 2))])])]⟩
      (.object [("message_id", .number (.fin 6)),
        ("location", .object [("longitude", .number (.fin 1)),
          ("latitude", .number (.fin 2))])])
      rfl (by decide)).2.2.1
      ⟨("location", isLocation), by simp [objectKinds], _, rfl, rfl⟩⟩

/-! ## C4: photo sequences -/

/-- C4: for every payload with a (truthy) message, if the photo field of the message is a
sequence then isPhoto is true exactly when the sequence has at least one element (false for
the empty sequence), and if the photo field is absent then isPhoto is false. -/
theorem c4_isPhoto_sequence (h : Host) (e : TelegramEvent) (m : JSValue)
    (hm : message e = .ok m) (ht : toBoolean m = true) :
    (∀ xs, getProp m "photo" = .ok (.array xs) →
      isPhoto h e = .ok (.bool (decide (0 < xs.length))) ∧
      (isPhoto h e = .ok (.bool true) ↔ 0 < xs.length)) ∧
    (getProp m "photo" = .ok (.array []) → isPhoto h e = .ok (.bool false)) ∧
    (∀ x xs, getProp m "photo" = .ok (.array (x :: xs)) → isPhoto h e = .ok (.bool true)) ∧
    (getProp m "photo" = .ok .undefined → isPhoto h e = .ok (.bool false)) := by
  have hm2 : getProp e._rawEvent "message" = .ok m := hm
  refine ⟨fun xs hp => ?_, fun hp => ?_, fun x xs hp => ?_, fun hp => ?_⟩
  · have hev := isPhoto_of_array h xs hm2 ht hp
    refine ⟨hev, ?_⟩
    rw [hev]
    by_cases hpos : 0 < xs.length
    · simp [hpos]
    · have hnil : xs = [] := by
        cases xs with
        | nil => rfl
        | cons y ys => simp at hpos
      subst hnil
      simp
  · simpa using isPhoto_of_array h [] hm2 ht hp
  · simpa using isPhoto_of_array h (x :: xs) hm2 ht hp
  · rw [isPhoto_truthy h hm2 ht hp]
    simp [toBoolean]

/-- C4 at a message with one photo size (file_id a, width 90, height 90): isPhoto is true. -/
theorem c4_isPhoto_sequence_witness :
    toBoolean (.object [("message_id", .number (.fin 8)),
        ("photo", .array [.object [("file_id", .string "a"), ("width", .number (.fin 90)),
          ("height", .number (.fin 90))]])]) = true ∧
    ∀ h : Host, isPhoto h ⟨.object [("update_id", .number (.fin 9)),
      ("message", .object [("message_id", .number (.fin 8)),
        ("photo", .array [.object [("file_id", .string "a"), ("width", .number (.fin 90)),
          ("height", .number (.fin 90))]])])]⟩ = .ok (.bool true) :=
  ⟨rfl, fun h => (c4_isPhoto_sequence h
    ⟨.object [("update_id", .number (.fin 9)),
      ("message", .object [("message_id", .number (.fin 8)),
        ("photo", .array [.object [("file_id", .string "a"), ("width", .number (.fin 90)),
          ("height", .number (.fin 90))]])])]⟩
    (.object [("message_id", .number (.fin 8)),
        ("photo", .array [.object [("file_id", .string "a"), ("width", .number (.fin 90)),
          ("height", .number (.fin 90))]])])
    rfl rfl).2.2.1 _ _ rfl⟩

/-! ## C5: text -/

/-- C5: for every payload, isText is true if and only if isMessage is true and the text field
of the message is a string. With a truthy message, the empty string as text gives true, and
an absent text or a text that is not a string gives false. -/
theorem c5_isText_iff_string (e : TelegramEvent) :
    (isText e = .ok (.bool true) ↔
      isMessage e = .ok (.bool true) ∧
        ∃ m s, message e = .ok m ∧ getProp m "text" = .ok (.string s)) ∧
    (∀ m, message e = .ok m → toBoolean m = true → getProp m "text" = .ok (.string "") →
      isText e = .ok (.bool true)) ∧
    (∀ m t, message e = .ok m → toBoolean m = true → getProp m "text" = .ok t →
      isString t = false → isText e = .ok (.bool false)) := by
  refine ⟨?_, ?_, ?_⟩
  · cases hm : getProp e._rawEvent "message" with
    | error err =>
      have h1 : isText e = .error err := by
        simp [isText, isMessage, hm, bind, Except.bind]
      have h2 : isMessage e = .error err := by
        simp [isMessage, hm, bind, Except.bind]
      simp [h1, h2]
    | ok m =>
      rw [isMessage_eval hm]
      cases ht : toBoolean m
      · rw [isText_falsy hm ht]
        simp
      · obtain ⟨t, hx⟩ := getProp_ok_of_hasFields "text" (hasFields_of_truthy ht)
        rw [isText_truthy hm ht hx]
        constructor
        · intro hr
          refine ⟨rfl, m, ?_⟩
          cases t <;> simp [isString] at hr
          exact ⟨_, hm, hx⟩
        · rintro ⟨-, m2, s2, hm2, hx2⟩
          have hmm : m2 = m := by
            have := hm2.symm.trans hm
            simpa using this
          subst hmm
          have htt : t = .string s2 := by
            have := hx.symm.trans hx2
            simpa using this
          subst htt
          rfl
  · intro m hm ht hx
    simpa [isString] using isText_truthy (e := e) hm ht hx
  · intro m t hm ht hx hs
    simpa [hs] using isText_truthy (e := e) hm ht hx

/-- C5 at the payload with update_id 1 and a message whose text is the empty string. -/
theorem c5_isText_iff_string_witness :
    isText ⟨.object [("update_id", .number (.fin 1)),
      ("message", .object [("message_id", .number (.fin 5)), ("text", .string "")])]⟩
      = .ok (.bool true) :=
  (c5_isText_iff_string ⟨.object [("update_id", .number (.fin 1)),
      ("message", .object [("message_id", .number (.fin 5)), ("text", .string "")])]⟩).2.1
    (.object [("message_id", .number (.fin 5)), ("text", .string "")]) rfl rfl rfl

/-! ## C6: the ten object kinds -/

/-- C6: for every payload and each of the ten getters isAudio, isDocument, isSticker, isVideo,
isVoice, isVideoNote, isContact, isLocation, isVenue, isGame, the getter is true if and only if
isMessage is true and the field of the same name (audio, document, sticker, video, voice,
video_note, contact, location, venue, game) holds a structured value; with a truthy message, a
field that holds a primitive or null, or is absent, gives false. -/
theorem c6_object_kind_iff_structured (e : TelegramEvent) :
    ∀ k ∈ objectKinds,
      (k.2 e = .ok (.bool true) ↔
        isMessage e = .ok (.bool true) ∧
          ∃ m v, message e = .ok m ∧ getProp m k.1 = .ok v ∧ isStructured v = true) ∧
      (∀ m v, message e = .ok m → toBoolean m = true → getProp m k.1 = .ok v →
        isPrimitiveOrNull v = true → k.2 e = .ok (.bool false)) := by
  intro k hk
  rw [objectKinds_eq_isObjectKind k hk]
  refine ⟨?_, ?_⟩
  · cases hm : getProp e._rawEvent "message" with
    | error err =>
      have h1 : isObjectKind k.1 e = .error err := by
        simp [isObjectKind, isMessage, hm, bind, Except.bind]
      have h2 : isMessage e = .error err := by
        simp [isMessage, hm, bind, Except.bind]
      simp [h1, h2]
    | ok m =>
      rw [isMessage_eval hm]
      cases ht : toBoolean m
      · rw [isObjectKind_falsy k.1 hm ht]
        simp
      · obtain ⟨v, hv⟩ := getProp_ok_of_hasFields k.1 (hasFields_of_truthy ht)
        rw [isObjectKind_truthy hm ht hv]
        constructor
        · intro hr
          refine ⟨rfl, m, v, hm, hv, ?_⟩
          simpa using hr
        · rintro ⟨-, m2, v2, hm2, hv2, hs⟩
          have hmm : m2 = m := by
            have := hm2.symm.trans hm
            simpa using this
          subst hmm
          have hvv : v2 = v := by
            have := hv2.symm.trans hv
            simpa using this
          subst hvv
          rw [hs]
  · intro m v hm ht hv hs
    have hns : isStructured v = false := by
      cases v <;> simp [isPrimitiveOrNull] at hs <;> rfl
    simpa [hns] using isObjectKind_truthy (e := e) hm ht hv

/-- C6 at the payload with update_id 2 and a message holding a location with longitude 1 and
latitude 2: isLocation is true; and at a message whose audio is the string x: isAudio is
false. -/
theorem c6_object_kind_iff_structured_witness :
    isLocation ⟨.object [("update_id", .number (.fin 2)),
      ("message", .object [("message_id", .number (.fin 6)),
        ("location", .object [("longitude", .number (.fin 1)),
          ("latitude", .number (.fin 2))])])]⟩ = .ok (.bool true) ∧
    isAudio ⟨.object [("update_id", .number (.fin 2)),
      ("message", .object [("message_id", .number (.fin 6)), ("audio", .string "x")])]⟩
      = .ok (.bool false) :=
  ⟨((c6_object_kind_iff_structured _ ("location", isLocation) (by simp [objectKinds])).1).2
      ⟨rfl, _, _, rfl, rfl, rfl⟩,
   (c6_object_kind_iff_structured _ ("audio", isAudio) (by simp [objectKinds])).2
      (.object [("message_id", .number (.fin 6)), ("audio", .string "x")]) (.string "x")
      rfl rfl rfl rfl⟩

/-! ## C7: isMessage -/

theorem isFalsy_eq_not_toBoolean (v : JSValue) : isFalsy v = !toBoolean v := by
  cases v with
  | bool b => cases b <;> rfl
  | number n => cases n <;> simp [isFalsy, toBoolean]
  | string s => simp [isFalsy, toBoolean]
  | _ => rfl

theorem getProp_object_eq_lookup (name : String) (fs : List (String × JSValue)) :
    getProp (.object fs) name = .ok ((fs.lookup name).getD .undefined) := by
  simp [getProp, lookupField_eq_lookup]

/-- C7 fails as stated. In the payload with update_id 1 whose message field holds the empty
string, and in the one whose message field holds null, the message field is present and yet
isMessage is false. -/
theorem c7_counterexample :
    (List.lookup "message" [("update_id", JSValue.number (.fin 1)), ("message", .string "")]
        = some (.string "") ∧
      isMessage ⟨.object [("update_id", .number (.fin 1)), ("message", .string "")]⟩
        = .ok (.bool false)) ∧
    (List.lookup "message" [("update_id", JSValue.number (.fin 1)), ("message", .null)]
        = some .null ∧
      isMessage ⟨.object [("update_id", .number (.fin 1)), ("message", .null)]⟩
        = .ok (.bool false)) :=
  ⟨⟨rfl, rfl⟩, ⟨rfl, rfl⟩⟩

/-- C7 as amended. For every payload object, isMessage is true if and only if the message
field is present and holds a truthy value, that is, a value other than undefined, null, false,
NaN, the two zeros and the empty string; in every other case isMessage is false. -/
theorem c7_isMessage_iff_truthy (fs : List (String × JSValue)) :
    (isMessage ⟨.object fs⟩ = .ok (.bool true) ↔
      ∃ v, fs.lookup "message" = some v ∧ isFalsy v = false) ∧
    (isMessage ⟨.object fs⟩ = .ok (.bool false) ↔
      ¬ ∃ v, fs.lookup "message" = some v ∧ isFalsy v = false) := by
  have hm : getProp (TelegramEvent.mk (.object fs))._rawEvent "message"
      = .ok ((fs.lookup "message").getD .undefined) := getProp_object_eq_lookup _ _
  rw [isMessage_eval hm]
  cases hl : fs.lookup "message" with
  | none => simp [toBoolean]
  | some v =>
    have hf := isFalsy_eq_not_toBoolean v
    cases hb : toBoolean v <;> simp [hb] at hf <;> simp [hb, hf]

/-! ## C8, C9: callback queries -/

/-- C8: for every payload object, isCallbackQuery is true if and only if the callback_query
field is present and holds a structured value. An absent field gives false, and so does a
field holding null or any primitive, truthy ones included (a non-empty string, a non-zero
number, true). -/
theorem c8_isCallbackQuery_iff_structured (fs : List (String × JSValue)) :
    (isCallbackQuery ⟨.object fs⟩ = .ok (.bool true) ↔
      ∃ c, fs.lookup "callback_query" = some c ∧ isStructured c = true) ∧
    (fs.lookup "callback_query" = none → isCallbackQuery ⟨.object fs⟩ = .ok (.bool false)) ∧
    (∀ c, fs.lookup "callback_query" = some c → isPrimitiveOrNull c = true →
      isCallbackQuery ⟨.object fs⟩ = .ok (.bool false)) := by
  have hc : getProp (TelegramEvent.mk (.object fs))._rawEvent "callback_query"
      = .ok ((fs.lookup "callback_query").getD .undefined) := getProp_object_eq_lookup _ _
  rw [isCallbackQuery_eval hc]
  refine ⟨?_, ?_, ?_⟩
  · cases hl : fs.lookup "callback_query" with
    | none => simp [isStructured]
    | some c => simp
  · intro hl
    simp [hl, isStructured]
  · intro c hl hp
    have hns : isStructured c = false := by
      cases c <;> simp [isPrimitiveOrNull] at hp <;> rfl
    simp [hl, hns]

/-- C8 at payloads whose callback_query holds the string x, the number 1 and true: truthy
primitives, for which isCallbackQuery is false. -/
theorem c8_isCallbackQuery_iff_structured_witness :
    isCallbackQuery ⟨.object [("update_id", .number (.fin 3)),
      ("callback_query", .string "x")]⟩ = .ok (.bool false) ∧
    isCallbackQuery ⟨.object [("update_id", .number (.fin 3)),
      ("callback_query", .number (.fin 1))]⟩ = .ok (.bool false) ∧
    isCallbackQuery ⟨.object [("update_id", .number (.fin 3)),
      ("callback_query", .bool true)]⟩ = .ok (.bool false) :=
  ⟨(c8_isCallbackQuery_iff_structured _).2.2 (.string "x") rfl rfl,
   (c8_isCallbackQuery_iff_structured _).2.2 (.number (.fin 1)) rfl rfl,
   (c8_isCallbackQuery_iff_structured _).2.2 (.bool true) rfl rfl⟩

/-- C9: for every payload object whose callback_query field holds a structured value c,
isCallbackQuery is true and the callbackQuery accessor returns c itself. -/
theorem c9_callbackQuery_round_trip (fs : List (String × JSValue)) (c : JSValue)
    (hl : fs.lookup "callback_query" = some c) (hs : isStructured c = true) :
    ∃ e, new (.object fs) = .ok e ∧ isCallbackQuery e = .ok (.bool true) ∧
      callbackQuery e = .ok c := by
  have hc : getProp (TelegramEvent.mk (.object fs))._rawEvent "callback_query" = .ok c := by
    rw [getProp_object_eq_lookup, hl]
    rfl
  exact ⟨⟨.object fs⟩, rfl, by rw [isCallbackQuery_eval hc, hs], hc⟩

/-- C9 at the payload with update_id 3 and a callback_query holding data x. -/
theorem c9_callbackQuery_round_trip_witness :
    ∃ e, new (.object [("update_id", .number (.fin 3)),
        ("callback_query", .object [("data", .string "x")])]) = .ok e ∧
      isCallbackQuery e = .ok (.bool true) ∧
      callbackQuery e = .ok (.object [("data", .string "x")]) :=
  c9_callbackQuery_round_trip _ (.object [("data", .string "x")]) rfl rfl

/-! ## C10: accessors -/

/-- C10 fails as stated on the payloads null and undefined: the wrapper is built and rawEvent
returns the payload, but the message accessor throws a TypeError instead of returning an absent
value. -/
theorem c10_counterexample :
    (∃ e, new .null = .ok e ∧ rawEvent e = .ok .null ∧ message e = .error .typeError) ∧
    (∃ e, new .undefined = .ok e ∧ rawEvent e = .ok .undefined ∧
      message e = .error .typeError) :=
  ⟨⟨⟨.null⟩, rfl, rfl, rfl⟩, ⟨⟨.undefined⟩, rfl, rfl, rfl⟩⟩

/-- C10 as amended: for every payload p the wrapper built from p stores p and rawEvent returns
p. For every payload other than null and undefined the message accessor returns the message
field if present and undefined otherwise: when p is an object, the value of its message field
if there is one and undefined if there is none; when p is any other value with fields (a
primitive or a sequence), undefined. -/
theorem c10_accessors_are_projections (p : JSValue) :
    (∃ e, new p = .ok e ∧ e._rawEvent = p ∧ rawEvent e = .ok p) ∧
    (∀ fs v, p = .object fs → fs.lookup "message" = some v →
      ∃ e, new p = .ok e ∧ message e = .ok v) ∧
    (∀ fs, p = .object fs → fs.lookup "message" = none →
      ∃ e, new p = .ok e ∧ message e = .ok .undefined) ∧
    (hasFields p = true → (∀ fs, p ≠ .object fs) →
      ∃ e, new p = .ok e ∧ message e = .ok .undefined) := by
  refine ⟨⟨⟨p⟩, rfl, rfl, rfl⟩, ?_, ?_, ?_⟩
  · rintro fs v rfl hl
    refine ⟨⟨.object fs⟩, rfl, ?_⟩
    simp [message, getProp_object_eq_lookup, hl]
  · rintro fs rfl hl
    refine ⟨⟨.object fs⟩, rfl, ?_⟩
    simp [message, getProp_object_eq_lookup, hl]
  · intro hp hno
    refine ⟨⟨p⟩, rfl, ?_⟩
    cases p with
    | undefined => simp [hasFields] at hp
    | null => simp [hasFields] at hp
    | object fs => exact absurd rfl (hno fs)
    | _ => simp [message, getProp]

/-- C10 as amended, at the payload with update_id 1 and a message holding message_id 5 and the
text hi. -/
theorem c10_accessors_are_projections_witness :
    ∃ e, new (.object [("update_id", .number (.fin 1)),
        ("message", .object [("message_id", .number (.fin 5)), ("text", .string "hi")])])
        = .ok e ∧
      message e = .ok (.object [("message_id", .number (.fin 5)), ("text", .string "hi")]) :=
  (c10_accessors_are_projections _).2.1 _ _ rfl rfl

/-! ## C11: no getter writes -/

theorem isMessage_frame (s : TelegramEvent) :
    Stateful.isMessage s = (TelegramEvent.isMessage s, s) := by
  simp only [Stateful.isMessage, TelegramEvent.isMessage, bind, Eval.seq, Eval.readRawEvent,
    Eval.ofExcept, pure, Eval.ret]
  cases getProp s._rawEvent "message" <;> rfl

theorem message_frame (s : TelegramEvent) :
    Stateful.message s = (TelegramEvent.message s, s) := by
  simp only [Stateful.message, TelegramEvent.message, bind, Eval.seq, Eval.readRawEvent,
    Eval.ofExcept]

theorem callbackQuery_frame (s : TelegramEvent) :
    Stateful.callbackQuery s = (TelegramEvent.callbackQuery s, s) := by
  simp only [Stateful.callbackQuery, TelegramEvent.callbackQuery, bind, Eval.seq,
    Eval.readRawEvent, Eval.ofExcept]

theorem isText_frame (s : TelegramEvent) :
    Stateful.isText s = (TelegramEvent.isText s, s) := by
  simp only [Stateful.isText, TelegramEvent.isText, bind, Eval.seq, isMessage_frame]
  cases TelegramEvent.isMessage s with
  | error err => rfl
  | ok c =>
    simp only [Eval.logicalAnd, JS.logicalAnd, Except.bind]
    cases toBoolean c
    · rfl
    · simp only [if_true, bind, Eval.seq, message_frame]
      cases TelegramEvent.message s with
      | error err => rfl
      | ok m =>
        simp only [Eval.ofExcept, Except.bind]
        cases getProp m "text" <;> rfl

theorem isObjectKind_frame (field : String) (s : TelegramEvent) :
    Stateful.isObjectKind field s = (TelegramEvent.isObjectKind field s, s) := by
  simp only [Stateful.isObjectKind, TelegramEvent.isObjectKind, bind, Eval.seq, isMessage_frame]
  cases TelegramEvent.isMessage s with
  | error err => rfl
  | ok c =>
    simp only [Except.bind]
    cases toBoolean (logicalNot c)
    · simp only [Bool.false_eq_true, if_false, bind, Eval.seq, message_frame]
      cases TelegramEvent.message s with
      | error err => rfl
      | ok m =>
        simp only [Eval.ofExcept, Except.bind]
        cases getProp m field with
        | error err => rfl
        | ok v =>
          simp only [Eval.logicalAnd, JS.logicalAnd]
          cases toBoolean (logicalNot (logicalNot v))
          · rfl
          · simp only [if_true, bind, Eval.seq, Except.bind]
            rfl
    · rfl

theorem isPhoto_frame (h : Host) (s : TelegramEvent) :
    Stateful.isPhoto h s = (TelegramEvent.isPhoto h s, s) := by
  simp only [Stateful.isPhoto, TelegramEvent.isPhoto, bind, Eval.seq, isMessage_frame]
  cases TelegramEvent.isMessage s with
  | error err => rfl
  | ok c =>
    simp only [Except.bind]
    cases toBoolean (logicalNot c)
    · simp only [Bool.false_eq_true, if_false, bind, Eval.seq, message_frame]
      cases TelegramEvent.message s with
      | error err => rfl
      | ok m =>
        simp only [Eval.ofExcept, Except.bind]
        cases getProp m "photo" with
        | error err => rfl
        | ok v =>
          simp only [Eval.logicalAnd, JS.logicalAnd]
          cases toBoolean (logicalNot (logicalNot v))
          · rfl
          · simp only [if_true, bind, Eval.seq, Except.bind, Eval.ofExcept]
            cases getProp v "length" <;> rfl
    · rfl

theorem isCallbackQuery_frame (s : TelegramEvent) :
    Stateful.isCallbackQuery s = (TelegramEvent.isCallbackQuery s, s) := by
  simp only [Stateful.isCallbackQuery, TelegramEvent.isCallbackQuery, bind, Eval.seq,
    callbackQuery_frame]
  cases hc : TelegramEvent.callbackQuery s with
  | error err => rfl
  | ok c =>
    simp only [Eval.logicalAnd, JS.logicalAnd, Except.bind]
    cases toBoolean (logicalNot (logicalNot c))
    · rfl
    · simp only [if_true, bind, Eval.seq, callbackQuery_frame, hc]
      rfl

theorem run_frame (h : Host) (g : Getter) (s : TelegramEvent) :
    g.run h s = (g.eval h s, s) := by
  cases g
  case rawEvent => rfl
  case isMessage => exact isMessage_frame s
  case message => exact message_frame s
  case callbackQuery => exact callbackQuery_frame s
  case isText => exact isText_frame s
  case isPhoto => exact isPhoto_frame h s
  case isCallbackQuery => exact isCallbackQuery_frame s
  all_goals exact isObjectKind_frame _ s

theorem runAll_frame (h : Host) (gs : List Getter) (s : TelegramEvent) :
    runAll h gs s = (gs.map (fun g => g.eval h s), s) := by
  induction gs with
  | nil => rfl
  | cons g gs ih => simp [runAll, run_frame, ih]

/-- C11: no getter mutates anything. With the wrapper passed as explicit state, every getter
(accessor or predicate) leaves the wrapper, and with it the stored payload, exactly as it
found it, whether it returns or throws; so after any sequence of calls the wrapper and its
payload are the ones before, rawEvent returns the same payload, and every getter completes as
it would have before the sequence. -/
theorem c11_getters_leave_state_unchanged (h : Host) (s : TelegramEvent) :
    (∀ g : Getter, (g.run h s).2 = s ∧ (g.run h s).2._rawEvent = s._rawEvent) ∧
    (∀ gs : List Getter,
      (runAll h gs s).2 = s ∧
      (runAll h gs s).2._rawEvent = s._rawEvent ∧
      (Stateful.rawEvent (runAll h gs s).2).1 = .ok s._rawEvent ∧
      (Stateful.rawEvent s).1 = .ok s._rawEvent ∧
      ∀ g : Getter, (g.run h (runAll h gs s).2).1 = (g.run h s).1) := by
  refine ⟨fun g => ?_, fun gs => ?_⟩
  · rw [run_frame]
    exact ⟨rfl, rfl⟩
  · rw [runAll_frame]
    exact ⟨rfl, rfl, rfl, rfl, fun g => rfl⟩

/-! ## C12: a location and nothing else -/

theorem hasFields_of_getProp_ok {p v : JSValue} {name : String} (hv : getProp p name = .ok v) :
    hasFields p = true := by
  cases p <;> simp [getProp] at hv <;> rfl

theorem isObjectKind_not_set {e : TelegramEvent} {m : JSValue} {field : String}
    (hm : getProp e._rawEvent "message" = .ok m) (ht : toBoolean m = true)
    (hn : fieldSet m field = false) : isObjectKind field e = .ok (.bool false) := by
  have hv := getProp_undefined_of_not_set (hasFields_of_truthy ht) hn
  simpa [isStructured] using isObjectKind_truthy hm ht hv

theorem isPhoto_not_set {e : TelegramEvent} {m : JSValue} (h : Host)
    (hm : getProp e._rawEvent "message" = .ok m) (ht : toBoolean m = true)
    (hn : fieldSet m "photo" = false) : isPhoto h e = .ok (.bool false) := by
  have hv := getProp_undefined_of_not_set (hasFields_of_truthy ht) hn
  rw [isPhoto_truthy h hm ht hv]
  simp [toBoolean]

theorem isText_not_set {e : TelegramEvent} {m : JSValue}
    (hm : getProp e._rawEvent "message" = .ok m) (ht : toBoolean m = true)
    (hn : fieldSet m "text" = false) : isText e = .ok (.bool false) := by
  have hv := getProp_undefined_of_not_set (hasFields_of_truthy ht) hn
  simpa [isString] using isText_truthy hm ht hv

/-- C12: for every payload whose message carries a structured location and has neither a
text nor any other kind field set, isLocation is true and each of the other eleven
message-kind getters (isText, isPhoto, isAudio, isDocument, isSticker, isVideo, isVoice,
isVideoNote, isContact, isVenue, isGame) is false. -/
theorem c12_location_only (e : TelegramEvent) (m v : JSValue)
    (hm : message e = .ok m) (hl : getProp m "location" = .ok v) (hs : isStructured v = true)
    (htext : fieldSet m "text" = false) (hphoto : fieldSet m "photo" = false)
    (hother : ∀ k ∈ objectKinds, k.1 ≠ "location" → fieldSet m k.1 = false) :
    isLocation e = .ok (.bool true) ∧ isText e = .ok (.bool false) ∧
    (∀ h : Host, isPhoto h e = .ok (.bool false)) ∧ isAudio e = .ok (.bool false) ∧
    isDocument e = .ok (.bool false) ∧ isSticker e = .ok (.bool false) ∧
    isVideo e = .ok (.bool false) ∧ isVoice e = .ok (.bool false) ∧
    isVideoNote e = .ok (.bool false) ∧ isContact e = .ok (.bool false) ∧
    isVenue e = .ok (.bool false) ∧ isGame e = .ok (.bool false) := by
  have hm2 : getProp e._rawEvent "message" = .ok m := hm
  have ht : toBoolean m = true :=
    truthy_of_fieldSet (by decide) (fieldSet_of_truthy hl (toBoolean_of_isStructured hs))
  have hloc : isLocation e = .ok (.bool true) := by
    have := isObjectKind_truthy hm2 ht hl
    rw [hs] at this
    exact this
  have key : ∀ k ∈ objectKinds, k.1 ≠ "location" → isObjectKind k.1 e = .ok (.bool false) :=
    fun k hk hne => isObjectKind_not_set hm2 ht (hother k hk hne)
  refine ⟨hloc, isText_not_set hm2 ht htext, fun h => isPhoto_not_set h hm2 ht hphoto,
    key ("audio", isAudio) (by simp [objectKinds]) (by decide),
    key ("document", isDocument) (by simp [objectKinds]) (by decide),
    key ("sticker", isSticker) (by simp [objectKinds]) (by decide),
    key ("video", isVideo) (by simp [objectKinds]) (by decide),
    key ("voice", isVoice) (by simp [objectKinds]) (by decide),
    key ("video_note", isVideoNote) (by simp [objectKinds]) (by decide),
    key ("contact", isContact) (by simp [objectKinds]) (by decide),
    key ("venue", isVenue) (by simp [objectKinds]) (by decide),
    key ("game", isGame) (by simp [objectKinds]) (by decide)⟩

/-- C12 at the payload of scenario B: update_id 2 and a message holding message_id 6 and a
location with longitude 1 and latitude 2. -/
theorem c12_location_only_witness :
    isLocation ⟨.object [("update_id", .number (.fin 2)),
      ("message", .object [("message_id", .number (.fin 6)),
        ("location", .object [("longitude", .number (.fin 1)),
          ("latitude", .number (.fin 2))])])]⟩ = .ok (.bool true) ∧
    isText ⟨.object [("update_id", .number (.fin 2)),
      ("message", .object [("message_id", .number (.fin 6)),
        ("location", .object [("longitude", .number (.fin 1)),
          ("latitude", .number (.fin 2))])])]⟩ = .ok (.bool false) ∧
    isVenue ⟨.object [("update_id", .number (.fin 2)),
      ("message", .object [("message_id", .number (.fin 6)),
        ("location", .object [("longitude", .number (.fin 1)),
          ("latitude", .number (.fin 2))])])]⟩ = .ok (.bool false) ∧
    ∀ h : Host, isPhoto h ⟨.object [("update_id", .number (.fin 2)),
      ("message", .object [("message_id", .number (.fin 6)),
        ("location", .object [("longitude", .number (.fin 1)),
          ("latitude", .number (.fin 2))])])]⟩ = .ok (.bool false) :=
  have w := c12_location_only
    ⟨.object [("update_id", .number (.fin 2)),
      ("message", .object [("message_id", .number (.fin 6)),
        ("location", .object [("longitude", .number (.fin 1)),
          ("latitude", .number (.fin 2))])])]⟩
    (.object [("message_id", .number (.fin 6)),
        ("location", .object [("longitude", .number (.fin 1)),
          ("latitude", .number (.fin 2))])])
    (.object [("longitude", .number (.fin 1)), ("latitude", .number (.fin 2))])
    rfl rfl rfl (by decide) (by decide)
    (by
      intro k hk hne
      simp only [objectKinds, List.mem_cons, List.mem_singleton, List.not_mem_nil, or_false] at hk
      rcases hk with hk | hk | hk | hk | hk | hk | hk | hk | hk | hk <;> subst hk
      all_goals first
        | exact absurd rfl hne
        | decide)
  ⟨w.1, w.2.1, w.2.2.2.2.2.2.2.2.2.2.1, w.2.2.1⟩

/-! ## C13: the two top-level branches -/

/-- C13: for every payload with a structured message that carries a string text and no photo,
and with no callback_query, isMessage and isText are true and isPhoto and isCallbackQuery are
false; for every payload with a structured callback_query and no message, isCallbackQuery is
true and isMessage is false. -/
theorem c13_top_level_branches (p : JSValue) :
    (∀ m s, getProp p "message" = .ok m → isStructured m = true →
      getProp m "text" = .ok (.string s) → fieldSet m "photo" = false →
      fieldSet p "callback_query" = false →
        isMessage ⟨p⟩ = .ok (.bool true) ∧ isText ⟨p⟩ = .ok (.bool true) ∧
        (∀ h : Host, isPhoto h ⟨p⟩ = .ok (.bool false)) ∧
        isCallbackQuery ⟨p⟩ = .ok (.bool false)) ∧
    (∀ c, getProp p "callback_query" = .ok c → isStructured c = true →
      fieldSet p "message" = false →
        isCallbackQuery ⟨p⟩ = .ok (.bool true) ∧ isMessage ⟨p⟩ = .ok (.bool false)) := by
  refine ⟨fun m s hm hs hx hph hcb => ?_, fun c hc hs hno => ?_⟩
  · have hm2 : getProp (TelegramEvent.mk p)._rawEvent "message" = .ok m := hm
    have ht : toBoolean m = true := toBoolean_of_isStructured hs
    have hc : getProp (TelegramEvent.mk p)._rawEvent "callback_query" = .ok .undefined :=
      getProp_undefined_of_not_set (hasFields_of_getProp_ok hm) hcb
    refine ⟨?_, ?_, fun h => isPhoto_not_set h hm2 ht hph, ?_⟩
    · rw [isMessage_eval hm2, ht]
    · simpa [isString] using isText_truthy hm2 ht hx
    · simpa [isStructured] using isCallbackQuery_eval hc
  · have hc2 : getProp (TelegramEvent.mk p)._rawEvent "callback_query" = .ok c := hc
    have hm : getProp (TelegramEvent.mk p)._rawEvent "message" = .ok .undefined :=
      getProp_undefined_of_not_set (hasFields_of_getProp_ok hc) hno
    refine ⟨?_, ?_⟩
    · rw [isCallbackQuery_eval hc2, hs]
    · simpa [toBoolean] using isMessage_eval hm

/-- C13 at the payloads of scenario A (update_id 1, a message holding message_id 5 and the
text hi) and scenario C (update_id 3, a callback_query holding data x). -/
theorem c13_top_level_branches_witness :
    (isMessage ⟨.object [("update_id", .number (.fin 1)),
        ("message", .object [("message_id", .number (.fin 5)), ("text", .string "hi")])]⟩
        = .ok (.bool true) ∧
      isText ⟨.object [("update_id", .number (.fin 1)),
        ("message", .object [("message_id", .number (.fin 5)), ("text", .string "hi")])]⟩
        = .ok (.bool true) ∧
      (∀ h : Host, isPhoto h ⟨.object [("update_id", .number (.fin 1)),
        ("message", .object [("message_id", .number (.fin 5)), ("text", .string "hi")])]⟩
        = .ok (.bool false)) ∧
      isCallbackQuery ⟨.object [("update_id", .number (.fin 1)),
        ("message", .object [("message_id", .number (.fin 5)), ("text", .string "hi")])]⟩
        = .ok (.bool false)) ∧
    (isCallbackQuery ⟨.object [("update_id", .number (.fin 3)),
        ("callback_query", .object [("data", .string "x")])]⟩ = .ok (.bool true) ∧
      isMessage ⟨.object [("update_id", .number (.fin 3)),
        ("callback_query", .object [("data", .string "x")])]⟩ = .ok (.bool false)) :=
  ⟨(c13_top_level_branches _).1
      (.object [("message_id", .number (.fin 5)), ("text", .string "hi")]) "hi"
      rfl rfl rfl (by decide) (by decide),
   (c13_top_level_branches _).2 (.object [("data", .string "x")]) rfl rfl (by decide)⟩

/-! ## C14: the branches are read independently -/

/-- C14: isMessage, message and every message-kind getter depend only on the message field of
the payload, and callbackQuery and isCallbackQuery only on its callback_query field: two
payloads that agree on one of the two fields give the same results for the getters of that
field, whatever else they hold. A payload carrying both a structured message and a structured
callback_query has isMessage and isCallbackQuery both true. -/
theorem c14_branches_independent (p q : JSValue) :
    (getProp p "message" = getProp q "message" →
      isMessage ⟨p⟩ = isMessage ⟨q⟩ ∧ message ⟨p⟩ = message ⟨q⟩ ∧
      isText ⟨p⟩ = isText ⟨q⟩ ∧ (∀ k ∈ objectKinds, k.2 ⟨p⟩ = k.2 ⟨q⟩) ∧
      ∀ h : Host, isPhoto h ⟨p⟩ = isPhoto h ⟨q⟩) ∧
    (getProp p "callback_query" = getProp q "callback_query" →
      callbackQuery ⟨p⟩ = callbackQuery ⟨q⟩ ∧ isCallbackQuery ⟨p⟩ = isCallbackQuery ⟨q⟩) ∧
    (∀ m c, getProp p "message" = .ok m → isStructured m = true →
      getProp p "callback_query" = .ok c → isStructured c = true →
        isMessage ⟨p⟩ = .ok (.bool true) ∧ isCallbackQuery ⟨p⟩ = .ok (.bool true)) := by
  refine ⟨fun hpq => ?_, fun hpq => ?_, fun m c hm hs hc hcs => ?_⟩
  · have hmsg : isMessage ⟨p⟩ = isMessage ⟨q⟩ := by
      simp only [isMessage, hpq]
    have hget : message ⟨p⟩ = message ⟨q⟩ := hpq
    refine ⟨hmsg, hget, ?_, ?_, ?_⟩
    · simp only [isText, hmsg, hget]
    · intro k hk
      rw [objectKinds_eq_isObjectKind k hk]
      simp only [isObjectKind, hmsg, hget]
    · intro h
      simp only [isPhoto, hmsg, hget]
  · have hget : callbackQuery ⟨p⟩ = callbackQuery ⟨q⟩ := hpq
    exact ⟨hget, by simp only [isCallbackQuery, hget]⟩
  · have hm2 : getProp (TelegramEvent.mk p)._rawEvent "message" = .ok m := hm
    have hc2 : getProp (TelegramEvent.mk p)._rawEvent "callback_query" = .ok c := hc
    exact ⟨by rw [isMessage_eval hm2, toBoolean_of_isStructured hs],
      by rw [isCallbackQuery_eval hc2, hcs]⟩

/-- C14 at two payloads with the same message (message_id 5, text hi), different update_id
and only one of them with a callback_query; and at a payload carrying both a message and a
callback_query. -/
theorem c14_branches_independent_witness :
    (isText ⟨.object [("update_id", .number (.fin 1)),
        ("message", .object [("message_id", .number (.fin 5)), ("text", .string "hi")])]⟩
      = isText ⟨.object [("update_id", .number (.fin 7)),
        ("callback_query", .object [("data", .string "x")]),
        ("message", .object [("message_id", .number (.fin 5)), ("text", .string "hi")])]⟩) ∧
    (isMessage ⟨.object [("update_id", .number (.fin 7)),
        ("callback_query", .object [("data", .string "x")]),
        ("message", .object [("message_id", .number (.fin 5)), ("text", .string "hi")])]⟩
        = .ok (.bool true) ∧
      isCallbackQuery ⟨.object [("update_id", .number (.fin 7)),
        ("callback_query", .object [("data", .string "x")]),
        ("message", .object [("message_id", .number (.fin 5)), ("text", .string "hi")])]⟩
        = .ok (.bool true)) :=
  ⟨((c14_branches_independent _ _).1 rfl).2.2.1,
   (c14_branches_independent _ (.object [])).2.2
      (.object [("message_id", .number (.fin 5)), ("text", .string "hi")])
      (.object [("data", .string "x")]) rfl rfl rfl rfl⟩

/-! ## C15: the results are booleans -/

theorem greaterThanNumber_bool_or_throw (h : Host) (l : JSValue) (n : JSNumber) :
    (∃ b, greaterThanNumber h l n = .ok (.bool b)) ∨
      greaterThanNumber h l n = .error .typeError := by
  cases hpl : toPrimitive h l with
  | error err =>
    cases err
    right
    simp only [greaterThanNumber, hpl, bind, Except.bind]
  | ok pl =>
    left
    simp only [greaterThanNumber, hpl, bind, Except.bind]
    cases JSNumber.lessThan n (primToNumber h pl) <;> simp [pure, Except.pure]

theorem isText_bool {e : TelegramEvent} (hp : hasFields e._rawEvent = true) :
    ∃ b, isText e = .ok (.bool b) := by
  obtain ⟨m, hm⟩ := getProp_ok_of_hasFields "message" hp
  cases ht : toBoolean m
  · exact ⟨_, isText_falsy hm ht⟩
  · obtain ⟨t, hx⟩ := getProp_ok_of_hasFields "text" (hasFields_of_truthy ht)
    exact ⟨_, isText_truthy hm ht hx⟩

theorem isObjectKind_bool {e : TelegramEvent} (field : String)
    (hp : hasFields e._rawEvent = true) : ∃ b, isObjectKind field e = .ok (.bool b) := by
  obtain ⟨m, hm⟩ := getProp_ok_of_hasFields "message" hp
  cases ht : toBoolean m
  · exact ⟨_, isObjectKind_falsy field hm ht⟩
  · obtain ⟨v, hv⟩ := getProp_ok_of_hasFields field (hasFields_of_truthy ht)
    exact ⟨_, isObjectKind_truthy hm ht hv⟩

theorem isPhoto_bool_or_throw {e : TelegramEvent} (h : Host)
    (hp : hasFields e._rawEvent = true) :
    (∃ b, isPhoto h e = .ok (.bool b)) ∨ isPhoto h e = .error .typeError := by
  obtain ⟨m, hm⟩ := getProp_ok_of_hasFields "message" hp
  cases ht : toBoolean m
  · exact Or.inl ⟨_, isPhoto_falsy h hm ht⟩
  · obtain ⟨ph, hv⟩ := getProp_ok_of_hasFields "photo" (hasFields_of_truthy ht)
    rw [isPhoto_truthy h hm ht hv]
    cases hb : toBoolean ph
    · exact Or.inl ⟨false, by simp⟩
    · obtain ⟨len, hlen⟩ := getProp_ok_of_hasFields "length" (hasFields_of_truthy hb)
      simp only [if_true, hlen, Except.bind]
      exact greaterThanNumber_bool_or_throw h len (.fin 0)

theorem isPhoto_bool_of_not_object {e : TelegramEvent} {m ph : JSValue} (h : Host)
    (hm : getProp e._rawEvent "message" = .ok m) (ht : toBoolean m = true)
    (hv : getProp m "photo" = .ok ph) (hno : ∀ fs, ph ≠ .object fs) :
    ∃ b, isPhoto h e = .ok (.bool b) := by
  rw [isPhoto_truthy h hm ht hv]
  cases hb : toBoolean ph
  · exact ⟨false, by simp⟩
  · simp only [if_true]
    cases ph with
    | undefined => simp [toBoolean] at hb
    | null => simp [toBoolean] at hb
    | bool b =>
      simpa [getProp, Except.bind] using
        greaterThanNumber_of_primitive h (l := .undefined) (.fin 0) rfl
    | number n =>
      simpa [getProp, Except.bind] using
        greaterThanNumber_of_primitive h (l := .undefined) (.fin 0) rfl
    | string s =>
      simpa [getProp, Except.bind] using
        greaterThanNumber_of_primitive h (l := .number (.fin (utf16Length s))) (.fin 0) rfl
    | array xs =>
      simpa [getProp, Except.bind] using
        greaterThanNumber_of_primitive h (l := .number (.fin xs.length)) (.fin 0) rfl
    | object fs => exact absurd rfl (hno fs)

/-- C15 fails as stated for isPhoto. On the payload object with update_id 5 whose message
(message_id 9) has a photo object whose length is an object with own valueOf and toString
properties holding 0, isPhoto evaluates neither to true nor to false: the comparison of that
length with zero throws a TypeError. -/
theorem c15_counterexample :
    hasFields (.object [("update_id", .number (.fin 5)),
      ("message", .object [("message_id", .number (.fin 9)),
        ("photo", .object [("length",
          .object [("valueOf", .number (.fin 0)), ("toString", .number (.fin 0))])])])]) = true ∧
    (∀ h : Host, isPhoto h ⟨.object [("update_id", .number (.fin 5)),
      ("message", .object [("message_id", .number (.fin 9)),
        ("photo", .object [("length",
          .object [("valueOf", .number (.fin 0)), ("toString", .number (.fin 0))])])])]⟩
        = .error .typeError) ∧
    (∀ (h : Host) (b : Bool), isPhoto h ⟨.object [("update_id", .number (.fin 5)),
      ("message", .object [("message_id", .number (.fin 9)),
        ("photo", .object [("length",
          .object [("valueOf", .number (.fin 0)), ("toString", .number (.fin 0))])])])]⟩
        ≠ .ok (.bool b)) := by
  have key : ∀ h : Host, isPhoto h ⟨.object [("update_id", .number (.fin 5)),
      ("message", .object [("message_id", .number (.fin 9)),
        ("photo", .object [("length",
          .object [("valueOf", .number (.fin 0)), ("toString", .number (.fin 0))])])])]⟩
        = .error .typeError := fun h => rfl
  refine ⟨rfl, key, fun h b hb => ?_⟩
  rw [key h] at hb
  cases hb

/-- C15 as amended. For every payload object (indeed every payload other than undefined and
null) and every value its fields hold, each of isMessage, isText, the ten object-kind getters
and isCallbackQuery evaluates to exactly true or exactly false. isPhoto never returns a value
that is not a boolean: it evaluates to exactly true or exactly false, or it throws a TypeError;
and it evaluates to true or false whenever the photo field is not a plain object. -/
theorem c15_predicates_return_booleans (p : JSValue) (hp : hasFields p = true) :
    (∃ b, isMessage ⟨p⟩ = .ok (.bool b)) ∧ (∃ b, isText ⟨p⟩ = .ok (.bool b)) ∧
    (∀ k ∈ objectKinds, ∃ b, k.2 ⟨p⟩ = .ok (.bool b)) ∧
    (∃ b, isCallbackQuery ⟨p⟩ = .ok (.bool b)) ∧
    (∀ h : Host, (∃ b, isPhoto h ⟨p⟩ = .ok (.bool b)) ∨ isPhoto h ⟨p⟩ = .error .typeError) ∧
    ((∀ m fs, message ⟨p⟩ = .ok m → getProp m "photo" ≠ .ok (.object fs)) →
      ∀ h : Host, ∃ b, isPhoto h ⟨p⟩ = .ok (.bool b)) := by
  have hp2 : hasFields (TelegramEvent.mk p)._rawEvent = true := hp
  obtain ⟨m, hm⟩ := getProp_ok_of_hasFields "message" hp
  obtain ⟨c, hc⟩ := getProp_ok_of_hasFields "callback_query" hp
  have hm2 : getProp (TelegramEvent.mk p)._rawEvent "message" = .ok m := hm
  refine ⟨⟨_, isMessage_eval hm2⟩, isText_bool hp2, ?_, ⟨_, isCallbackQuery_eval hc⟩,
    fun h => isPhoto_bool_or_throw h hp2, fun hph h => ?_⟩
  · intro k hk
    rw [objectKinds_eq_isObjectKind k hk]
    exact isObjectKind_bool k.1 hp2
  · cases ht : toBoolean m
    · exact ⟨_, isPhoto_falsy h hm2 ht⟩
    · obtain ⟨ph, hv⟩ := getProp_ok_of_hasFields "photo" (hasFields_of_truthy ht)
      exact isPhoto_bool_of_not_object h hm2 ht hv
        (fun fs hfs => hph m fs hm (by rw [hv, hfs]))

/-- C15 as amended, at the payload with update_id 2 and a message holding message_id 6 and the
audio string x: isAudio is the boolean false, not the string. -/
theorem c15_predicates_return_booleans_witness :
    hasFields (.object [("update_id", .number (.fin 2)),
      ("message", .object [("message_id", .number (.fin 6)), ("audio", .string "x")])]) = true ∧
    (∃ b, isAudio ⟨.object [("update_id", .number (.fin 2)),
      ("message", .object [("message_id", .number (.fin 6)), ("audio", .string "x")])]⟩
      = .ok (.bool b)) ∧
    (∃ b, isText ⟨.object [("update_id", .number (.fin 2)),
      ("message", .object [("message_id", .number (.fin 6)), ("audio", .string "x")])]⟩
      = .ok (.bool b)) :=
  have w := c15_predicates_return_booleans
    (.object [("update_id", .number (.fin 2)),
      ("message", .object [("message_id", .number (.fin 6)), ("audio", .string "x")])])
    (by decide)
  ⟨by decide, w.2.2.1 ("audio", isAudio) (by simp [objectKinds]), w.2.1⟩

/-! ## C16: several kind fields at once -/

theorem isObjectKind_congr {e1 e2 : TelegramEvent} {m1 m2 : JSValue} {field : String}
    (h1 : getProp e1._rawEvent "message" = .ok m1) (h2 : getProp e2._rawEvent "message" = .ok m2)
    (t1 : toBoolean m1 = true) (t2 : toBoolean m2 = true)
    (hf : getProp m1 field = getProp m2 field) :
    isObjectKind field e1 = isObjectKind field e2 := by
  obtain ⟨v, hv⟩ := getProp_ok_of_hasFields field (hasFields_of_truthy t1)
  rw [isObjectKind_truthy h1 t1 hv, isObjectKind_truthy h2 t2 (hf ▸ hv)]

theorem isText_congr {e1 e2 : TelegramEvent} {m1 m2 : JSValue}
    (h1 : getProp e1._rawEvent "message" = .ok m1) (h2 : getProp e2._rawEvent "message" = .ok m2)
    (t1 : toBoolean m1 = true) (t2 : toBoolean m2 = true)
    (hf : getProp m1 "text" = getProp m2 "text") : isText e1 = isText e2 := by
  obtain ⟨v, hv⟩ := getProp_ok_of_hasFields "text" (hasFields_of_truthy t1)
  rw [isText_truthy h1 t1 hv, isText_truthy h2 t2 (hf ▸ hv)]

theorem isPhoto_congr {e1 e2 : TelegramEvent} {m1 m2 : JSValue} (h : Host)
    (h1 : getProp e1._rawEvent "message" = .ok m1) (h2 : getProp e2._rawEvent "message" = .ok m2)
    (t1 : toBoolean m1 = true) (t2 : toBoolean m2 = true)
    (hf : getProp m1 "photo" = getProp m2 "photo") : isPhoto h e1 = isPhoto h e2 := by
  obtain ⟨v, hv⟩ := getProp_ok_of_hasFields "photo" (hasFields_of_truthy t1)
  rw [isPhoto_truthy h h1 t1 hv, isPhoto_truthy h h2 t2 (hf ▸ hv)]

/-- C16 fails as stated when one of the two kind fields is photo. In the payload with
update_id 2 whose message (message_id 6) holds an empty photo sequence and a location with
longitude 1 and latitude 2, both fields hold structured values, isLocation is true and isPhoto
is false. -/
theorem c16_counterexample :
    isStructured (.array []) = true ∧
    isStructured (.object [("longitude", .number (.fin 1)), ("latitude", .number (.fin 2))])
      = true ∧
    message ⟨.object [("update_id", .number (.fin 2)),
      ("message", .object [("message_id", .number (.fin 6)), ("photo", .array []),
        ("location", .object [("longitude", .number (.fin 1)),
          ("latitude", .number (.fin 2))])])]⟩
      = .ok (.object [("message_id", .number (.fin 6)), ("photo", .array []),
        ("location", .object [("longitude", .number (.fin 1)),
          ("latitude", .number (.fin 2))])]) ∧
    isLocation ⟨.object [("update_id", .number (.fin 2)),
      ("message", .object [("message_id", .number (.fin 6)), ("photo", .array []),
        ("location", .object [("longitude", .number (.fin 1)),
          ("latitude", .number (.fin 2))])])]⟩ = .ok (.bool true) ∧
    (∀ h : Host, isPhoto h ⟨.object [("update_id", .number (.fin 2)),
      ("message", .object [("message_id", .number (.fin 6)), ("photo", .array []),
        ("location", .object [("longitude", .number (.fin 1)),
          ("latitude", .number (.fin 2))])])]⟩ = .ok (.bool false)) := by
  refine ⟨rfl, rfl, rfl, rfl, fun h => ?_⟩
  have hm : getProp (TelegramEvent.mk (.object [("update_id", .number (.fin 2)),
      ("message", .object [("message_id", .number (.fin 6)), ("photo", .array []),
        ("location", .object [("longitude", .number (.fin 1)),
          ("latitude", .number (.fin 2))])])]))._rawEvent "message"
      = .ok (.object [("message_id", .number (.fin 6)), ("photo", .array []),
        ("location", .object [("longitude", .number (.fin 1)),
          ("latitude", .number (.fin 2))])]) := rfl
  simpa using isPhoto_of_array h [] hm rfl rfl

/-- C16 as amended. The kind getters are not mutually exclusive: for every payload whose
message holds structured values in two distinct fields among the ten object-kind fields (for
example venue and location), the two corresponding getters are both true; and isPhoto is true
alongside an object-kind getter when the photo field holds a non-empty sequence. Each of the
twelve getters is decided by its own field alone: two payloads with (truthy) messages that
agree on the field of a getter give that getter the same result, whatever the other fields of
the messages hold. -/
theorem c16_kinds_not_exclusive (e : TelegramEvent) (m : JSValue) (hm : message e = .ok m) :
    (∀ k1 ∈ objectKinds, ∀ k2 ∈ objectKinds, k1.1 ≠ k2.1 →
      ∀ v1 v2, getProp m k1.1 = .ok v1 → isStructured v1 = true →
        getProp m k2.1 = .ok v2 → isStructured v2 = true →
        k1.2 e = .ok (.bool true) ∧ k2.2 e = .ok (.bool true)) ∧
    (∀ k ∈ objectKinds, ∀ v x xs, getProp m k.1 = .ok v → isStructured v = true →
      getProp m "photo" = .ok (.array (x :: xs)) →
        k.2 e = .ok (.bool true) ∧ ∀ h : Host, isPhoto h e = .ok (.bool true)) ∧
    (∀ e2 m2, message e2 = .ok m2 → toBoolean m = true → toBoolean m2 = true →
      (∀ k ∈ objectKinds, getProp m k.1 = getProp m2 k.1 → k.2 e = k.2 e2) ∧
      (getProp m "text" = getProp m2 "text" → isText e = isText e2) ∧
      (getProp m "photo" = getProp m2 "photo" → ∀ h : Host, isPhoto h e = isPhoto h e2)) := by
  have hm1 : getProp e._rawEvent "message" = .ok m := hm
  refine ⟨fun k1 hk1 k2 hk2 _ v1 v2 hv1 hs1 hv2 hs2 => ?_,
    fun k hk v x xs hv hs hph => ?_, fun e2 m2 hm2 t1 t2 => ?_⟩
  · have ht : toBoolean m = true :=
      truthy_of_fieldSet (objectKinds_field_ne_length k1 hk1)
        (fieldSet_of_truthy hv1 (toBoolean_of_isStructured hs1))
    rw [objectKinds_eq_isObjectKind k1 hk1, objectKinds_eq_isObjectKind k2 hk2,
      isObjectKind_truthy hm1 ht hv1, isObjectKind_truthy hm1 ht hv2, hs1, hs2]
    exact ⟨rfl, rfl⟩
  · have ht : toBoolean m = true :=
      truthy_of_fieldSet (objectKinds_field_ne_length k hk)
        (fieldSet_of_truthy hv (toBoolean_of_isStructured hs))
    refine ⟨?_, fun h => ?_⟩
    · rw [objectKinds_eq_isObjectKind k hk, isObjectKind_truthy hm1 ht hv, hs]
    · simpa using isPhoto_of_array h (x :: xs) hm1 ht hph
  · have hm3 : getProp e2._rawEvent "message" = .ok m2 := hm2
    refine ⟨fun k hk hf => ?_, fun hf => isText_congr hm1 hm3 t1 t2 hf,
      fun hf h => isPhoto_congr h hm1 hm3 t1 t2 hf⟩
    rw [objectKinds_eq_isObjectKind k hk]
    exact isObjectKind_congr hm1 hm3 t1 t2 hf

/-- C16 as amended, at the payload with update_id 2 and a message holding message_id 6, a venue (with a
location, the title t and the address a) and a location: isVenue and isLocation are both
true. -/
theorem c16_kinds_not_exclusive_witness :
    isVenue ⟨.object [("update_id", .number (.fin 2)),
      ("message", .object [("message_id", .number (.fin 6)),
        ("venue", .object [("location", .object [("longitude", .number (.fin 1)),
          ("latitude", .number (.fin 2))]), ("title", .string "t"), ("address", .string "a")]),
        ("location", .object [("longitude", .number (.fin 1)),
          ("latitude", .number (.fin 2))])])]⟩ = .ok (.bool true) ∧
    isLocation ⟨.object [("update_id", .number (.fin 2)),
      ("message", .object [("message_id", .number (.fin 6)),
        ("venue", .object [("location", .object [("longitude", .number (.fin 1)),
          ("latitude", .number (.fin 2))]), ("title", .string "t"), ("address", .string "a")]),
        ("location", .object [("longitude", .number (.fin 1)),
          ("latitude", .number (.fin 2))])])]⟩ = .ok (.bool true) :=
  (c16_kinds_not_exclusive
    ⟨.object [("update_id", .number (.fin 2)),
      ("message", .object [("message_id", .number (.fin 6)),
        ("venue", .object [("location", .object [("longitude", .number (.fin 1)),
          ("latitude", .number (.fin 2))]), ("title", .string "t"), ("address", .string "a")]),
        ("location", .object [("longitude", .number (.fin 1)),
          ("latitude", .number (.fin 2))])])]⟩
    (.object [("message_id", .number (.fin 6)),
        ("venue", .object [("location", .object [("longitude", .number (.fin 1)),
          ("latitude", .number (.fin 2))]), ("title", .string "t"), ("address", .string "a")]),
        ("location", .object [("longitude", .number (.fin 1)),
          ("latitude", .number (.fin 2))])]) rfl).1
    ("venue", isVenue) (by simp [objectKinds]) ("location", isLocation) (by simp [objectKinds])
    (by decide) _ _ rfl rfl rfl rfl

/-! ## C17: isPhoto has no type test -/

theorem greaterThanNumber_number (h : Host) (n : JSNumber) :
    greaterThanNumber h (.number n) (.fin 0) = .ok (.bool (isPositive n)) := by
  cases n <;>
    simp [greaterThanNumber, toPrimitive, primToNumber, JSNumber.lessThan, JSNumber.toRat,
      isPositive, bind, Except.bind, pure, Except.pure]

theorem greaterThanNumber_undefined (h : Host) :
    greaterThanNumber h .undefined (.fin 0) = .ok (.bool false) := by
  simp [greaterThanNumber, toPrimitive, primToNumber, JSNumber.lessThan, bind, Except.bind,
    pure, Except.pure]

theorem utf16Length_pos {s : String} (hs : s ≠ "") : 0 < utf16Length s := by
  obtain ⟨l⟩ := s
  cases l with
  | nil => exact absurd rfl hs
  | cons c cs =>
    simp only [utf16Length, String.toList, List.map_cons, List.sum_cons]
    split <;> omega

/-- C17: isPhoto has no type test on the photo field. For every payload with a truthy message
whose photo is a truthy value, isPhoto completes exactly as the comparison of photo.length with
zero: it is true whenever that length is a number greater than zero, whatever kind of value
photo is, and false when the length is a number that is not greater than zero or is absent.
So a photo that is a non-empty string gives true, and a photo that is a number or an empty
object gives false. The object-kind getters differ: a field holding a string gives false. -/
theorem c17_isPhoto_no_type_check (h : Host) (e : TelegramEvent) (m ph : JSValue)
    (hm : message e = .ok m) (ht : toBoolean m = true)
    (hp : getProp m "photo" = .ok ph) (hb : toBoolean ph = true) :
    (∀ len, getProp ph "length" = .ok len →
      isPhoto h e = greaterThanNumber h len (.fin 0)) ∧
    (∀ n, getProp ph "length" = .ok (.number n) → isPositive n = true →
      isPhoto h e = .ok (.bool true)) ∧
    (∀ n, getProp ph "length" = .ok (.number n) → isPositive n = false →
      isPhoto h e = .ok (.bool false)) ∧
    (getProp ph "length" = .ok .undefined → isPhoto h e = .ok (.bool false)) ∧
    (∀ s, ph = .string s → isPhoto h e = .ok (.bool true)) ∧
    (∀ n, ph = .number n → isPhoto h e = .ok (.bool false)) ∧
    (ph = .object [] → isPhoto h e = .ok (.bool false)) ∧
    (∀ k ∈ objectKinds, ∀ s, getProp m k.1 = .ok (.string s) → k.2 e = .ok (.bool false)) := by
  have hm2 : getProp e._rawEvent "message" = .ok m := hm
  have hev : ∀ len, getProp ph "length" = .ok len →
      isPhoto h e = greaterThanNumber h len (.fin 0) := by
    intro len hlen
    rw [isPhoto_truthy h hm2 ht hp]
    simp [hb, hlen, Except.bind]
  refine ⟨hev, ?_, ?_, ?_, ?_, ?_, ?_, ?_⟩
  · intro n hlen hpos
    rw [hev _ hlen, greaterThanNumber_number, hpos]
  · intro n hlen hpos
    rw [hev _ hlen, greaterThanNumber_number, hpos]
  · intro hlen
    rw [hev _ hlen, greaterThanNumber_undefined]
  · rintro s rfl
    have hne : s ≠ "" := by simpa [toBoolean] using hb
    have hlen : getProp (.string s) "length" = .ok (.number (.fin (utf16Length s))) := by
      simp [getProp]
    rw [hev _ hlen, greaterThanNumber_number]
    simp [isPositive, utf16Length_pos hne]
  · rintro n rfl
    rw [hev .undefined rfl, greaterThanNumber_undefined]
  · rintro rfl
    rw [hev .undefined rfl, greaterThanNumber_undefined]
  · intro k hk s hs
    rw [objectKinds_eq_isObjectKind k hk, isObjectKind_truthy hm2 ht hs]
    rfl

/-- C17 at three payloads with update_id 1 and a message holding message_id 5 and a photo: the
string abc gives true, the number 5 gives false, the empty object gives false. -/
theorem c17_isPhoto_no_type_check_witness :
    (∀ h : Host, isPhoto h ⟨.object [("update_id", .number (.fin 1)),
      ("message", .object [("message_id", .number (.fin 5)), ("photo", .string "abc")])]⟩
        = .ok (.bool true)) ∧
    (∀ h : Host, isPhoto h ⟨.object [("update_id", .number (.fin 1)),
      ("message", .object [("message_id", .number (.fin 5)), ("photo", .number (.fin 5))])]⟩
        = .ok (.bool false)) ∧
    (∀ h : Host, isPhoto h ⟨.object [("update_id", .number (.fin 1)),
      ("message", .object [("message_id", .number (.fin 5)), ("photo", .object [])])]⟩
        = .ok (.bool false)) :=
  ⟨fun h => (c17_isPhoto_no_type_check h
      ⟨.object [("update_id", .number (.fin 1)),
        ("message", .object [("message_id", .number (.fin 5)), ("photo", .string "abc")])]⟩
      (.object [("message_id", .number (.fin 5)), ("photo", .string "abc")]) (.string "abc")
      rfl rfl rfl (by decide)).2.2.2.2.1 "abc" rfl,
   fun h => (c17_isPhoto_no_type_check h
      ⟨.object [("update_id", .number (.fin 1)),
        ("message", .object [("message_id", .number (.fin 5)), ("photo", .number (.fin 5))])]⟩
      (.object [("message_id", .number (.fin 5)), ("photo", .number (.fin 5))])
      (.number (.fin 5))
      rfl rfl rfl (by simp [toBoolean])).2.2.2.2.2.1 (.fin 5) rfl,
   fun h => (c17_isPhoto_no_type_check h
      ⟨.object [("update_id", .number (.fin 1)),
        ("message", .object [("message_id", .number (.fin 5)), ("photo", .object [])])]⟩
      (.object [("message_id", .number (.fin 5)), ("photo", .object [])]) (.object [])
      rfl rfl rfl rfl).2.2.2.2.2.2.1 rfl⟩

end TelegramEvent
